import Mathlib

/-!
Verification of the PAN transport-encoding core (dual-format wire codec):
a shallow embedding of the transport codec (`encodeV1Packet`, `decodeV1Packet`,
`encodeV7BPacket`, `decodeV7BPacket`, `decodePacket`, `decodeJsonPayload`,
`uuidToBytes`, `bytesToUuid`) and of the packet validators (`isFastUuid`,
`isValidBaseFields`, `validateRequiredFieldsByType`), together with theorems
settling the specification claims.

Modelling conventions:
* JavaScript bytes / `Uint8Array` buffers are `List Nat` with values `< 256`
  (writes into a `Uint8Array` apply the ToUint8 coercion, modelled explicitly).
* Dynamically typed JavaScript values (packet headers, JSON values, payload
  arguments) are modelled by the inductive `JsVal`.  JavaScript numbers are
  modelled as exact rationals (`Rat`); IEEE-754 rounding and NaN/Infinity are
  not represented (NaN appears only as the `none` result of `toNumber`, which
  is how every use site in the source consumes it).
* Fallible operations (JavaScript `throw`) return `Except String α`, carrying
  the thrown error message.
-/

namespace PanUtil

/-- Model of a dynamically-typed JavaScript value, as used by the codec and
the validators: `undefinedVal` models `undefined`, distinct from `null`, `bytes` is a `Uint8Array`,
`obj` is a plain object as an ordered field list. -/
inductive JsVal where
  | undefinedVal
  | null
  | bool (b : Bool)
  | num (q : Rat)
  | str (s : String)
  | bytes (bs : List Nat)
  | arr (xs : List JsVal)
  | obj (fields : List (String × JsVal))

/-- JavaScript `typeof v === 'object'`: true for plain objects, arrays,
typed arrays and `null`. -/
def typeofIsObject : JsVal → Bool
  | .null | .bytes _ | .arr _ | .obj _ => true
  | _ => false

/-- Is the value exactly `null` (JavaScript `v === null`). -/
def jsIsNull : JsVal → Bool
  | .null => true
  | _ => false

/-- JavaScript property access `v[k]` on an object (non-objects and missing
keys give `undefined`; for duplicate keys, as produced by `JSON.parse`, the
last binding wins). -/
def getField (v : JsVal) (k : String) : JsVal :=
  match v with
  | .obj fields => fields.foldl (fun acc kv => if kv.1 == k then kv.2 else acc) .undefinedVal
  | _ => .undefinedVal

/-- JavaScript truthiness (`!!v`).  The model has no NaN literal; `toNumber`
below yields `none` where JavaScript would produce NaN. -/
def truthy : JsVal → Bool
  | .undefinedVal | .null => false
  | .bool b => b
  | .num q => q != 0
  | .str s => s != ""
  | .bytes _ => true
  | .arr _ => true
  | .obj _ => true

/-- JavaScript nullish test (`v ?? d` picks `d` exactly on these). -/
def isNullish : JsVal → Bool
  | .undefinedVal | .null => true
  | _ => false

/-- Is the character one of JavaScript's StringToNumber whitespace characters
(the ones relevant to this development). -/
def isJsWhitespace (c : Char) : Bool :=
  let n := c.toNat
  n == 32 || n == 9 || n == 10 || n == 13 || n == 11 || n == 12 ||
    n == 160 || n == 0xFEFF || n == 0x2028 || n == 0x2029

/-- Hexadecimal digit test on a character (`0-9a-fA-F`), by code point. -/
def isHexDigitChar (c : Char) : Bool :=
  (48 ≤ c.toNat && c.toNat ≤ 57) || (97 ≤ c.toNat && c.toNat ≤ 102) ||
    (65 ≤ c.toNat && c.toNat ≤ 70)

/-- Numeric value of a hexadecimal digit character (0 for non-digits,
matching the NaN-to-zero coercions at every use site). -/
def charHexVal (c : Char) : Nat :=
  if 48 ≤ c.toNat && c.toNat ≤ 57 then c.toNat - 48
  else if 97 ≤ c.toNat && c.toNat ≤ 102 then c.toNat - 87
  else if 65 ≤ c.toNat && c.toNat ≤ 70 then c.toNat - 55
  else 0

/-- Decimal digits to a natural number. -/
def digitsToNat (ds : List Char) : Nat :=
  ds.foldl (fun a c => a * 10 + (c.toNat - 48)) 0

/-- Hexadecimal digits to a natural number. -/
def hexDigitsToNat (ds : List Char) : Nat :=
  ds.foldl (fun a c => a * 16 + charHexVal c) 0

/-- Exact rational value of the decimal literal
`ip [. fp] [e esgn ed]`, negated when `neg` (written with `mkRat` and
integer powers of ten so that it evaluates by kernel reduction). -/
def decimalToRat (neg : Bool) (ip fp : List Char) (esgn : Int) (ed : List Char) : Rat :=
  let mant : Int := (digitsToNat ip * 10 ^ fp.length + digitsToNat fp : Nat)
  let e : Int := esgn * (digitsToNat ed : Int) - (fp.length : Int)
  let v : Rat := if 0 ≤ e then mkRat (mant * 10 ^ e.toNat) 1
    else mkRat mant (10 ^ (-e).toNat)
  if neg then -v else v

/-- Parse an (unsigned) JavaScript decimal numeric literal
`digits [. digits] [(e|E) [+|-] digits]`; `none` models NaN. -/
def parseDecimalLit (cs : List Char) : Option Rat :=
  let ip := cs.takeWhile Char.isDigit
  let r1 := cs.dropWhile Char.isDigit
  let fp := match r1 with
    | '.' :: t => t.takeWhile Char.isDigit
    | _ => []
  let r2 := match r1 with
    | '.' :: t => t.dropWhile Char.isDigit
    | _ => r1
  if ip.isEmpty && fp.isEmpty then none
  else
    match r2 with
    | [] => some (decimalToRat false ip fp 1 [])
    | e :: t =>
      if e == 'e' || e == 'E' then
        let sgn : Int := match t with
          | '+' :: _ => 1
          | '-' :: _ => -1
          | _ => 1
        let t2 := match t with
          | '+' :: u => u
          | '-' :: u => u
          | _ => t
        let ed := t2.takeWhile Char.isDigit
        let r3 := t2.dropWhile Char.isDigit
        if ed.isEmpty || !r3.isEmpty then none
        else some (decimalToRat false ip fp sgn ed)
      else none

/-- JavaScript `Number(string)` (StringToNumber): trimmed empty string is 0,
optional sign with a decimal literal, `0x` hexadecimal; other forms
(including `Infinity`, which no use site distinguishes from NaN) give
`none`. -/
def stringToNumber (s : String) : Option Rat :=
  let cs := (s.data.dropWhile isJsWhitespace).reverse.dropWhile isJsWhitespace |>.reverse
  match cs with
  | [] => some 0
  | '0' :: x :: t =>
    if x == 'x' || x == 'X' then
      if !t.isEmpty && t.all isHexDigitChar then some (hexDigitsToNat t : Rat) else none
    else parseDecimalLit cs
  | '-' :: t => (parseDecimalLit t).map (fun q => -q)
  | '+' :: t => parseDecimalLit t
  | _ => parseDecimalLit cs

/-- JavaScript `Number(v)` (ToNumber); `none` models NaN (and Infinity, see
`stringToNumber`).  Arrays and typed arrays coerce through their joined
string form: empty to 0, singleton to the element's value, longer to NaN. -/
def toNumber : JsVal → Option Rat
  | .undefinedVal => none
  | .null => some 0
  | .bool b => some (if b then 1 else 0)
  | .num q => some q
  | .str s => stringToNumber s
  | .bytes [] => some 0
  | .bytes [b] => some (b : Rat)
  | .bytes _ => none
  | .arr [] => some 0
  | .arr [x] => toNumber x
  | .arr _ => none
  | .obj _ => none

/-- Truncation toward zero of a rational (JavaScript ToIntegerOrInfinity on
a finite number). -/
def truncRat (q : Rat) : Int :=
  if 0 ≤ q then Rat.floor q else -(Rat.floor (-q))

/-- JavaScript ToUint8, as applied by a store into a `Uint8Array`
(NaN becomes 0, then truncation toward zero and modulo 256). -/
def jsToByte (v : JsVal) : Nat :=
  match toNumber v with
  | none => 0
  | some q => (truncRat q % 256).toNat

/-! ## constants.js -/

def VALID_AGENT_MESSAGE_TYPES : List String := ["direct", "broadcast", "control"]

def ROUTING_ENVELOPE_SIZE : Nat := 88
def MAX_JSON_ENVELOPE_SIZE : Nat := 442
def MAX_PAYLOAD_SIZE : Nat := 60 * 1024

/-! ## validators.js -/

def MAX_TTL : Nat := 255
def MIN_TTL : Nat := 0
def MAX_AGENT_TTL : Nat := 1
def MIN_AGENT_TTL : Nat := 0

/-- Ultra-fast "looks like a UUID" checker (`isFastUuid` in validators.js):
a 36-character string with dashes at indices 8, 13, 18 and 23. -/
def isFastUuid (v : JsVal) : Bool :=
  match v with
  | .str s =>
    let cs := s.data
    cs.length == 36 && cs.getD 8 'x' == '-' && cs.getD 13 'x' == '-' &&
      cs.getD 18 'x' == '-' && cs.getD 23 'x' == '-'
  | _ => false

/-- `isValidBaseFields(msg, { fromAgent })` from validators.js.  Note the
source reads `msg.msg_id` (not `msg.message_id`). -/
def isValidBaseFields (msg : JsVal) (fromAgent : Bool) : Bool :=
  if !typeofIsObject msg || jsIsNull msg then false
  else if !isFastUuid (getField msg "msg_id") then false
  else if !typeofIsObject (getField msg "from") || jsIsNull (getField msg "from") then false
  else if !isFastUuid (getField (getField msg "from") "node_id") then false
  else if !(match getField (getField msg "from") "conn_id" with
            | .str _ => true
            | _ => false) then false
  else
    -- const ttl = Number(msg.ttl); integrality and origin-dependent bounds
    match toNumber (getField msg "ttl") with
    | none => false
    | some q =>
      let minTtl : Rat := if fromAgent then (MIN_AGENT_TTL : Rat) else (MIN_TTL : Rat)
      let maxTtl : Rat := if fromAgent then (MAX_AGENT_TTL : Rat) else (MAX_TTL : Rat)
      if q.den != 1 then false
      else decide (minTtl ≤ q) && decide (q ≤ maxTtl)

/-- `validateRequiredFieldsByType(msg, payload, fromAgent)` from
validators.js: base fields, then the type-specific `to` shape; the
`control` case additionally requires a truthy `payload`. -/
def validateRequiredFieldsByType (msg : JsVal) (payload : JsVal) (fromAgent : Bool) : Bool :=
  if !isValidBaseFields msg fromAgent then false
  else if !(match getField msg "type" with
            | .str s => VALID_AGENT_MESSAGE_TYPES.contains s
            | _ => false) then false
  else
    match getField msg "type" with
    | .str "direct" =>
      truthy (getField msg "to") && isFastUuid (getField (getField msg "to") "node_id") &&
        isFastUuid (getField (getField msg "to") "conn_id")
    | .str "broadcast" =>
      (truthy (getField msg "to") && isFastUuid (getField (getField msg "to") "group_id")) &&
        (truthy (getField msg "to") && isFastUuid (getField (getField msg "to") "message_type"))
    | .str "control" =>
      truthy (getField msg "to") && isFastUuid (getField (getField msg "to") "node_id") &&
        isFastUuid (getField (getField msg "to") "conn_id") && truthy payload
    | _ => false

/-! ## UUID helpers (transport module) -/

/-- `uuid.replace(dashGlobalRegex, "")`: remove every dash. -/
def stripDashes (s : String) : List Char := s.data.filter (fun c => c != '-')

/-- `parseInt(slice, 16)` on the two-character slices taken by `uuidToBytes`,
composed with the `Uint8Array` store (NaN becomes 0): value of the longest
hex-digit prefix of the two characters.  (Exotic slices containing
whitespace or sign characters, which no theorem below touches, are
modelled as their hex-prefix value as well.) -/
def parseIntHex2 (c1 c2 : Char) : Nat :=
  if isHexDigitChar c1 then
    if isHexDigitChar c2 then 16 * charHexVal c1 + charHexVal c2
    else charHexVal c1
  else 0

/-- The 16-iteration loop of `uuidToBytes`: `parseInt(hex.substr(i*2, 2), 16)`
for each pair (the one-character leftover case is unreachable because the
caller has checked `hex.length === 32`). -/
def parsePairs : List Char → List Nat
  | c1 :: c2 :: rest => parseIntHex2 c1 c2 :: parsePairs rest
  | [c] => [parseIntHex2 c (Char.ofNat 0)]
  | [] => []

/-- `uuidToBytes(uuid)` from the transport module.  The argument is an
`Option String` so that a missing (`undefined`) argument is representable;
`none` and the empty string are the falsy inputs rejected by the `!uuid`
guard. -/
def uuidToBytes (uuid : Option String) : Except String (List Nat) :=
  match uuid with
  | none => .error "UUID required"
  | some u =>
    if u == "" then .error "UUID required"
    else
      let hex := stripDashes u
      if hex.length != 32 then .error "Invalid UUID format"
      else .ok (parsePairs hex)

/-- One hex digit character, lower case (`n.toString(16)` digit). -/
def hexCharOfNat (n : Nat) : Char :=
  if n < 10 then Char.ofNat (48 + n) else Char.ofNat (87 + n)

/-- `b.toString(16).padStart(2, "0")` for a byte value `b < 256`. -/
def byteToHex2 (b : Nat) : List Char :=
  [hexCharOfNat (b / 16), hexCharOfNat (b % 16)]

/-- `bytesToUuid(bytes)` from the transport module: 16 bytes to lower-case
hex with dashes re-inserted at the canonical positions
(`hex.slice(0,8) + "-" + hex.slice(8,12) + "-" + hex.slice(12,16) + "-" +
hex.slice(16,20) + "-" + hex.slice(20)`). -/
def bytesToUuid (bytes : List Nat) : Except String String :=
  if bytes.length != 16 then .error "Expected 16-byte Uint8Array"
  else
    let hex := (bytes.map byteToHex2).flatten
    .ok (String.mk (hex.take 8 ++ '-' ::
      ((hex.drop 8).take 4 ++ '-' ::
        ((hex.drop 12).take 4 ++ '-' ::
          ((hex.drop 16).take 4 ++ '-' :: hex.drop 20)))))

/-- The claim's notion of a syntactically valid UUID text: 36 characters
with dashes exactly at indices 8, 13, 18, 23 and hexadecimal digits at the
other 32 positions (written as a shape match so that the grouping
8-4-4-4-12 is explicit). -/
def isUuidShape (u : String) : Bool :=
  match u.data with
  | a1 :: a2 :: a3 :: a4 :: a5 :: a6 :: a7 :: a8 :: d1 ::
    b1 :: b2 :: b3 :: b4 :: d2 ::
    c1 :: c2 :: c3 :: c4 :: d3 ::
    e1 :: e2 :: e3 :: e4 :: d4 ::
    f1 :: f2 :: f3 :: f4 :: f5 :: f6 :: f7 :: f8 :: f9 :: f10 :: f11 :: f12 :: [] =>
    d1 == '-' && d2 == '-' && d3 == '-' && d4 == '-' &&
      [a1, a2, a3, a4, a5, a6, a7, a8, b1, b2, b3, b4, c1, c2, c3, c4,
       e1, e2, e3, e4, f1, f2, f3, f4, f5, f6, f7, f8, f9, f10, f11,
       f12].all isHexDigitChar
  | _ => false

/-! ### UUID codec lemmas -/

theorem charHexVal_lt (c : Char) : charHexVal c < 16 := by
  unfold charHexVal
  split
  next h => simp only [Bool.and_eq_true, decide_eq_true_eq] at h; omega
  split
  next h => simp only [Bool.and_eq_true, decide_eq_true_eq] at h; omega
  split
  next h => simp only [Bool.and_eq_true, decide_eq_true_eq] at h; omega
  omega

theorem hex_ne_dash {c : Char} (h : isHexDigitChar c = true) : (c != '-') = true := by
  simp only [bne_iff_ne, ne_eq]
  rintro rfl
  exact absurd h (by decide)

theorem hexCharOfNat_charHexVal {c : Char} (h : isHexDigitChar c = true) :
    hexCharOfNat (charHexVal c) = c.toLower := by
  simp only [isHexDigitChar, Bool.or_eq_true, Bool.and_eq_true, decide_eq_true_eq] at h
  obtain ⟨n, hn⟩ : ∃ n, c.toNat = n := ⟨_, rfl⟩
  rw [← Char.ofNat_toNat c, hn]
  rw [hn] at h
  have h1 : 48 ≤ n := by omega
  have h2 : n ≤ 102 := by omega
  interval_cases n <;> first
    | decide
    | (exfalso; omega)

theorem byteToHex2_parseIntHex2 {c1 c2 : Char} (h1 : isHexDigitChar c1 = true)
    (h2 : isHexDigitChar c2 = true) :
    byteToHex2 (parseIntHex2 c1 c2) = [c1.toLower, c2.toLower] := by
  unfold byteToHex2 parseIntHex2
  rw [if_pos h1, if_pos h2]
  have v1 : charHexVal c1 < 16 := charHexVal_lt c1
  have v2 : charHexVal c2 < 16 := charHexVal_lt c2
  have e1 : (16 * charHexVal c1 + charHexVal c2) / 16 = charHexVal c1 := by omega
  have e2 : (16 * charHexVal c1 + charHexVal c2) % 16 = charHexVal c2 := by omega
  rw [e1, e2, hexCharOfNat_charHexVal h1, hexCharOfNat_charHexVal h2]

theorem hexJoin_parsePairs (l : List Char) (hhex : ∀ c ∈ l, isHexDigitChar c = true)
    (hev : l.length % 2 = 0) :
    ((parsePairs l).map byteToHex2).flatten = l.map Char.toLower := by
  match l with
  | [] => simp [parsePairs]
  | [c] => simp at hev
  | c1 :: c2 :: rest =>
    have ih := hexJoin_parsePairs rest (fun c hc => hhex c (by simp [hc]))
      (by simp only [List.length_cons] at hev; omega)
    simp only [parsePairs, List.map_cons, List.flatten_cons,
      byteToHex2_parseIntHex2 (hhex c1 (by simp)) (hhex c2 (by simp)), ih]
    simp

/-- Core UUID round-trip: on a syntactically valid UUID text, `uuidToBytes`
succeeds and `bytesToUuid` maps its result back to the lower-cased text. -/
theorem uuid_roundtrip_core (u : String) (h : isUuidShape u = true) :
    uuidToBytes (some u) = .ok (parsePairs (stripDashes u)) ∧
    (stripDashes u).length = 32 ∧
    bytesToUuid (parsePairs (stripDashes u)) = .ok (String.mk (u.data.map Char.toLower)) := by
  unfold isUuidShape at h
  split at h
  case h_2 => simp at h
  case h_1 a1 a2 a3 a4 a5 a6 a7 a8 d1 b1 b2 b3 b4 d2 c1 c2 c3 c4 d3 e1 e2 e3 e4 d4 f1 f2 f3 f4 f5 f6 f7 f8 f9 f10 f11 f12 heq =>
    simp only [Bool.and_eq_true, beq_iff_eq, List.all_cons, List.all_nil,
      Bool.and_true] at h
    obtain ⟨⟨⟨⟨hd1, hd2⟩, hd3⟩, hd4⟩, ha1, ha2, ha3, ha4, ha5, ha6, ha7, ha8,
      hb1, hb2, hb3, hb4, hc1, hc2, hc3, hc4, he1, he2, he3, he4,
      hf1, hf2, hf3, hf4, hf5, hf6, hf7, hf8, hf9, hf10, hf11, hf12⟩ := h
    subst hd1 hd2 hd3 hd4
    have hne : u ≠ "" := by
      intro e
      rw [e] at heq
      simp at heq
    have hstrip : stripDashes u =
        [a1, a2, a3, a4, a5, a6, a7, a8, b1, b2, b3, b4, c1, c2, c3, c4,
         e1, e2, e3, e4, f1, f2, f3, f4, f5, f6, f7, f8, f9, f10, f11, f12] := by
      simp only [stripDashes, heq, List.filter_cons, hex_ne_dash ha1,
        hex_ne_dash ha2, hex_ne_dash ha3, hex_ne_dash ha4, hex_ne_dash ha5,
        hex_ne_dash ha6, hex_ne_dash ha7, hex_ne_dash ha8, hex_ne_dash hb1,
        hex_ne_dash hb2, hex_ne_dash hb3, hex_ne_dash hb4, hex_ne_dash hc1,
        hex_ne_dash hc2, hex_ne_dash hc3, hex_ne_dash hc4, hex_ne_dash he1,
        hex_ne_dash he2, hex_ne_dash he3, hex_ne_dash he4, hex_ne_dash hf1,
        hex_ne_dash hf2, hex_ne_dash hf3, hex_ne_dash hf4, hex_ne_dash hf5,
        hex_ne_dash hf6, hex_ne_dash hf7, hex_ne_dash hf8, hex_ne_dash hf9,
        hex_ne_dash hf10, hex_ne_dash hf11, hex_ne_dash hf12]
      simp [List.filter_cons]
    refine ⟨?_, by rw [hstrip]; rfl, ?_⟩
    · simp only [uuidToBytes, hstrip]
      rw [if_neg (by simpa using hne)]
      simp
    · have hflat := hexJoin_parsePairs
        [a1, a2, a3, a4, a5, a6, a7, a8, b1, b2, b3, b4, c1, c2, c3, c4,
         e1, e2, e3, e4, f1, f2, f3, f4, f5, f6, f7, f8, f9, f10, f11, f12]
        (by
          intro c hc
          simp only [List.mem_cons, List.not_mem_nil, or_false] at hc
          rcases hc with rfl | rfl | rfl | rfl | rfl | rfl | rfl | rfl | rfl |
            rfl | rfl | rfl | rfl | rfl | rfl | rfl | rfl | rfl | rfl | rfl |
            rfl | rfl | rfl | rfl | rfl | rfl | rfl | rfl | rfl | rfl | rfl |
            rfl <;> assumption)
        (by simp)
      rw [hstrip]
      simp only [bytesToUuid]
      rw [if_neg (by simp [parsePairs])]
      simp only [parsePairs] at hflat ⊢
      rw [hflat]
      rw [heq]
      simp [Char.toLower]

/-! ## UTF-8 (TextEncoder / TextDecoder) -/

/-- UTF-8 encoding of one character (`TextEncoder`). -/
def utf8EncodeChar (c : Char) : List Nat :=
  let v := c.toNat
  if v < 0x80 then [v]
  else if v < 0x800 then [0xC0 + v / 0x40, 0x80 + v % 0x40]
  else if v < 0x10000 then
    [0xE0 + v / 0x1000, 0x80 + v / 0x40 % 0x40, 0x80 + v % 0x40]
  else
    [0xF0 + v / 0x40000, 0x80 + v / 0x1000 % 0x40, 0x80 + v / 0x40 % 0x40,
     0x80 + v % 0x40]

/-- `new TextEncoder().encode(s)`. -/
def utf8Encode (s : String) : List Nat := (s.data.map utf8EncodeChar).flatten

/-- U+FFFD, the replacement character emitted by a non-fatal
`TextDecoder` at each invalid subsequence. -/
def replChar : Char := Char.ofNat 0xFFFD

/-- UTF-8 continuation byte test. -/
def isUtf8Cont (b : Nat) : Bool := 0x80 ≤ b && b ≤ 0xBF

/-- Valid range of the second byte of a three-byte sequence (rules out
overlong forms and surrogates). -/
def utf8Cont3Ok (b b1 : Nat) : Bool :=
  if b == 0xE0 then 0xA0 ≤ b1 && b1 ≤ 0xBF
  else if b == 0xED then 0x80 ≤ b1 && b1 ≤ 0x9F
  else isUtf8Cont b1

/-- Valid range of the second byte of a four-byte sequence (rules out
overlong forms and values above U+10FFFF). -/
def utf8Cont4Ok (b b1 : Nat) : Bool :=
  if b == 0xF0 then 0x90 ≤ b1 && b1 ≤ 0xBF
  else if b == 0xF4 then 0x80 ≤ b1 && b1 ≤ 0x8F
  else isUtf8Cont b1

/-- The WHATWG UTF-8 decoder with replacement (`new TextDecoder().decode`,
no `fatal` flag): each maximal invalid subsequence yields one U+FFFD. -/
def utf8DecodeLoop : List Nat → List Char
  | [] => []
  | b :: rest =>
    if b < 0x80 then Char.ofNat b :: utf8DecodeLoop rest
    else if b < 0xC2 then replChar :: utf8DecodeLoop rest
    else if b < 0xE0 then
      match rest with
      | [] => [replChar]
      | b1 :: r2 =>
        if isUtf8Cont b1 then
          Char.ofNat ((b - 0xC0) * 0x40 + (b1 - 0x80)) :: utf8DecodeLoop r2
        else replChar :: utf8DecodeLoop (b1 :: r2)
    else if b < 0xF0 then
      match rest with
      | [] => [replChar]
      | b1 :: r2 =>
        if utf8Cont3Ok b b1 then
          match r2 with
          | [] => [replChar]
          | b2 :: r3 =>
            if isUtf8Cont b2 then
              Char.ofNat ((b - 0xE0) * 0x1000 + (b1 - 0x80) * 0x40 + (b2 - 0x80)) ::
                utf8DecodeLoop r3
            else replChar :: utf8DecodeLoop (b2 :: r3)
        else replChar :: utf8DecodeLoop (b1 :: r2)
    else if b < 0xF5 then
      match rest with
      | [] => [replChar]
      | b1 :: r2 =>
        if utf8Cont4Ok b b1 then
          match r2 with
          | [] => [replChar]
          | b2 :: r3 =>
            if isUtf8Cont b2 then
              match r3 with
              | [] => [replChar]
              | b3 :: r4 =>
                if isUtf8Cont b3 then
                  Char.ofNat ((b - 0xF0) * 0x40000 + (b1 - 0x80) * 0x1000 +
                      (b2 - 0x80) * 0x40 + (b3 - 0x80)) :: utf8DecodeLoop r4
                else replChar :: utf8DecodeLoop (b3 :: r4)
            else replChar :: utf8DecodeLoop (b2 :: r3)
        else replChar :: utf8DecodeLoop (b1 :: r2)
    else replChar :: utf8DecodeLoop rest

/-- `new TextDecoder().decode(bytes)` (lossy, never throws). -/
def utf8DecodeLossy (bytes : List Nat) : String := String.mk (utf8DecodeLoop bytes)

/-- Strict UTF-8 validity of a byte sequence (used to state the claims'
"invalid UTF-8" side conditions; the codec itself never checks this). -/
def validUtf8 : List Nat → Bool
  | [] => true
  | b :: rest =>
    if b < 0x80 then validUtf8 rest
    else if b < 0xC2 then false
    else if b < 0xE0 then
      match rest with
      | b1 :: r2 => isUtf8Cont b1 && validUtf8 r2
      | [] => false
    else if b < 0xF0 then
      match rest with
      | b1 :: b2 :: r3 => utf8Cont3Ok b b1 && isUtf8Cont b2 && validUtf8 r3
      | _ => false
    else if b < 0xF5 then
      match rest with
      | b1 :: b2 :: b3 :: r4 =>
        utf8Cont4Ok b b1 && isUtf8Cont b2 && isUtf8Cont b3 && validUtf8 r4
      | _ => false
    else false

/-! ### UTF-8 round trip -/

theorem char_toNat_valid (c : Char) :
    c.toNat < 0xD800 ∨ (0xE000 ≤ c.toNat ∧ c.toNat < 0x110000) := by
  have h : c.toNat.isValidChar := c.valid
  unfold Nat.isValidChar at h
  omega

theorem utf8DecodeLoop_encodeChar (c : Char) (rest : List Nat) :
    utf8DecodeLoop (utf8EncodeChar c ++ rest) = c :: utf8DecodeLoop rest := by
  have hv := char_toNat_valid c
  have hofn : Char.ofNat c.toNat = c := Char.ofNat_toNat c
  unfold utf8EncodeChar
  by_cases h1 : c.toNat < 0x80
  · rw [if_pos h1]
    simp only [List.cons_append, List.nil_append]
    rw [utf8DecodeLoop.eq_def]
    dsimp only
    rw [if_pos h1, hofn]
  · rw [if_neg h1]
    by_cases h2 : c.toNat < 0x800
    · rw [if_pos h2]
      simp only [List.cons_append, List.nil_append]
      rw [utf8DecodeLoop.eq_def]
      dsimp only
      rw [if_neg (by omega), if_neg (by omega), if_pos (by omega),
        if_pos (by simp only [isUtf8Cont, Bool.and_eq_true, decide_eq_true_eq]; omega)]
      have harg : (0xC0 + c.toNat / 0x40 - 0xC0) * 0x40 +
          (0x80 + c.toNat % 0x40 - 0x80) = c.toNat := by omega
      rw [harg, hofn]
    · rw [if_neg h2]
      by_cases h3 : c.toNat < 0x10000
      · rw [if_pos h3]
        simp only [List.cons_append, List.nil_append]
        rw [utf8DecodeLoop.eq_def]
        dsimp only
        rw [if_neg (by omega), if_neg (by omega), if_neg (by omega),
          if_pos (by omega),
          if_pos (by
            simp only [utf8Cont3Ok, isUtf8Cont, beq_iff_eq]
            split
            next he => simp only [Bool.and_eq_true, decide_eq_true_eq]; omega
            next he =>
              split
              next hd => simp only [Bool.and_eq_true, decide_eq_true_eq]; omega
              next hd => simp only [Bool.and_eq_true, decide_eq_true_eq]; omega),
          if_pos (by simp only [isUtf8Cont, Bool.and_eq_true, decide_eq_true_eq]; omega)]
        have harg : (0xE0 + c.toNat / 0x1000 - 0xE0) * 0x1000 +
            (0x80 + c.toNat / 0x40 % 0x40 - 0x80) * 0x40 +
            (0x80 + c.toNat % 0x40 - 0x80) = c.toNat := by omega
        rw [harg, hofn]
      · rw [if_neg h3]
        simp only [List.cons_append, List.nil_append]
        rw [utf8DecodeLoop.eq_def]
        dsimp only
        have h4 : c.toNat < 0x110000 := by omega
        rw [if_neg (by omega), if_neg (by omega), if_neg (by omega),
          if_neg (by omega), if_pos (by omega),
          if_pos (by
            simp only [utf8Cont4Ok, isUtf8Cont, beq_iff_eq]
            split
            next he => simp only [Bool.and_eq_true, decide_eq_true_eq]; omega
            next he =>
              split
              next hd => simp only [Bool.and_eq_true, decide_eq_true_eq]; omega
              next hd => simp only [Bool.and_eq_true, decide_eq_true_eq]; omega),
          if_pos (by simp only [isUtf8Cont, Bool.and_eq_true, decide_eq_true_eq]; omega),
          if_pos (by simp only [isUtf8Cont, Bool.and_eq_true, decide_eq_true_eq]; omega)]
        have harg : (0xF0 + c.toNat / 0x40000 - 0xF0) * 0x40000 +
            (0x80 + c.toNat / 0x1000 % 0x40 - 0x80) * 0x1000 +
            (0x80 + c.toNat / 0x40 % 0x40 - 0x80) * 0x40 +
            (0x80 + c.toNat % 0x40 - 0x80) = c.toNat := by omega
        rw [harg, hofn]

theorem utf8DecodeLoop_flatten (cs : List Char) :
    utf8DecodeLoop ((cs.map utf8EncodeChar).flatten) = cs := by
  induction cs with
  | nil => rfl
  | cons c cs ih =>
    simp only [List.map_cons, List.flatten_cons, utf8DecodeLoop_encodeChar, ih]

/-- `TextDecoder` is a left inverse of `TextEncoder`. -/
theorem utf8_roundtrip (s : String) : utf8DecodeLossy (utf8Encode s) = s := by
  unfold utf8DecodeLossy utf8Encode
  rw [utf8DecodeLoop_flatten]

/-! ## JSON (`JSON.parse` / `JSON.stringify`) -/

/-- JSON whitespace. -/
def isJsonWs (c : Char) : Bool :=
  c == ' ' || c == '\t' || c == '\n' || c == '\r'

def skipJsonWs (l : List Char) : List Char := l.dropWhile isJsonWs

/-- Body of a JSON string literal, after the opening quote; returns the
decoded characters and the input remaining after the closing quote.
Lone surrogate escapes, which Lean's `Char` cannot carry, are modelled as
U+FFFD (no theorem exercises them).  The fuel passed at every call site
(`length + 1`, each step consuming at least one character) is always
sufficient. -/
def parseJsonStringBody : Nat → List Char → Except String (List Char × List Char)
  | 0, _ => .error "Unterminated string in JSON"
  | _, [] => .error "Unterminated string in JSON"
  | Nat.succ fuel, c :: rest =>
    if c == '"' then .ok ([], rest)
    else if c == '\\' then
      match rest with
      | [] => .error "Unterminated string in JSON"
      | 'u' :: h1 :: h2 :: h3 :: h4 :: r3 =>
        if isHexDigitChar h1 && isHexDigitChar h2 && isHexDigitChar h3 &&
            isHexDigitChar h4 then
          let n := ((charHexVal h1 * 16 + charHexVal h2) * 16 + charHexVal h3) * 16 +
            charHexVal h4
          if 0xD800 ≤ n && n ≤ 0xDBFF then
            match r3 with
            | '\\' :: 'u' :: h5 :: h6 :: h7 :: h8 :: r5 =>
              if isHexDigitChar h5 && isHexDigitChar h6 && isHexDigitChar h7 &&
                  isHexDigitChar h8 then
                let n2 := ((charHexVal h5 * 16 + charHexVal h6) * 16 + charHexVal h7) * 16 +
                  charHexVal h8
                if 0xDC00 ≤ n2 && n2 ≤ 0xDFFF then
                  (parseJsonStringBody fuel r5).map
                    (fun p => (Char.ofNat (0x10000 + (n - 0xD800) * 0x400 + (n2 - 0xDC00)) ::
                      p.1, p.2))
                else
                  (parseJsonStringBody fuel r3).map (fun p => (replChar :: p.1, p.2))
              else
                (parseJsonStringBody fuel r3).map (fun p => (replChar :: p.1, p.2))
            | _ => (parseJsonStringBody fuel r3).map (fun p => (replChar :: p.1, p.2))
          else if 0xDC00 ≤ n && n ≤ 0xDFFF then
            (parseJsonStringBody fuel r3).map (fun p => (replChar :: p.1, p.2))
          else (parseJsonStringBody fuel r3).map (fun p => (Char.ofNat n :: p.1, p.2))
        else .error "Bad Unicode escape in JSON"
      | 'u' :: _ => .error "Bad Unicode escape in JSON"
      | e :: r2 =>
        let esc : Option Char :=
          if e == '"' then some '"'
          else if e == '\\' then some '\\'
          else if e == '/' then some '/'
          else if e == 'b' then some (Char.ofNat 8)
          else if e == 'f' then some (Char.ofNat 12)
          else if e == 'n' then some '\n'
          else if e == 'r' then some '\r'
          else if e == 't' then some '\t'
          else none
        match esc with
        | none => .error "Bad escape in JSON"
        | some ch => (parseJsonStringBody fuel r2).map (fun p => (ch :: p.1, p.2))
    else if c.toNat < 0x20 then .error "Bad control character in JSON"
    else (parseJsonStringBody fuel rest).map (fun p => (c :: p.1, p.2))

/-- JSON number grammar
`-? (0 | [1-9][0-9]*) (. [0-9]+)? ((e|E) (+|-)? [0-9]+)?`,
evaluated exactly (the model does not round to binary floating point). -/
def parseJsonNumber (l : List Char) : Except String (Rat × List Char) :=
  let neg := match l with
    | '-' :: _ => true
    | _ => false
  let l1 := match l with
    | '-' :: t => t
    | _ => l
  let ip := l1.takeWhile Char.isDigit
  let r1 := l1.dropWhile Char.isDigit
  if ip.isEmpty then .error "Unexpected token in JSON"
  else if ip.length > 1 && ip.headD '0' == '0' then .error "Unexpected number in JSON"
  else
    let hasDot := match r1 with
      | '.' :: _ => true
      | _ => false
    let fp := match r1 with
      | '.' :: t => t.takeWhile Char.isDigit
      | _ => []
    let r2 := match r1 with
      | '.' :: t => t.dropWhile Char.isDigit
      | _ => r1
    if hasDot && fp.isEmpty then .error "Unexpected token in JSON"
    else
      let hasExp := match r2 with
        | 'e' :: _ => true
        | 'E' :: _ => true
        | _ => false
      let t2 := match r2 with
        | 'e' :: t => t
        | 'E' :: t => t
        | _ => r2
      let expSgn : Int := match t2 with
        | '-' :: _ => -1
        | _ => 1
      let t3 := match t2 with
        | '+' :: t => t
        | '-' :: t => t
        | _ => t2
      let ed := if hasExp then t3.takeWhile Char.isDigit else []
      let r3 := if hasExp then t3.dropWhile Char.isDigit else r2
      if hasExp && ed.isEmpty then .error "Unexpected token in JSON"
      else .ok (decimalToRat neg ip fp expSgn ed, r3)

mutual

/-- `JSON.parse` value grammar, fuel-indexed (the fuel passed by
`jsonParse` suffices for any input). -/
def parseJsonValue : Nat → List Char → Except String (JsVal × List Char)
  | 0, _ => .error "JSON depth exceeded"
  | Nat.succ fuel, l =>
    match skipJsonWs l with
    | [] => .error "Unexpected end of JSON input"
    | c :: rest =>
      if c == '{' then parseJsonObjectBody fuel rest [] true
      else if c == '[' then parseJsonArrayBody fuel rest [] true
      else if c == '"' then
        (parseJsonStringBody (rest.length + 1) rest).map (fun p => (.str (String.mk p.1), p.2))
      else if c == 't' then
        match rest with
        | 'r' :: 'u' :: 'e' :: r => .ok (.bool true, r)
        | _ => .error "Unexpected token in JSON"
      else if c == 'f' then
        match rest with
        | 'a' :: 'l' :: 's' :: 'e' :: r => .ok (.bool false, r)
        | _ => .error "Unexpected token in JSON"
      else if c == 'n' then
        match rest with
        | 'u' :: 'l' :: 'l' :: r => .ok (.null, r)
        | _ => .error "Unexpected token in JSON"
      else if c == '-' || c.isDigit then
        (parseJsonNumber (c :: rest)).map (fun p => (.num p.1, p.2))
      else .error "Unexpected token in JSON"

/-- Members of a JSON object after `{` (or after a separating comma when
`first` is false). -/
def parseJsonObjectBody : Nat → List Char → List (String × JsVal) → Bool →
    Except String (JsVal × List Char)
  | 0, _, _, _ => .error "JSON depth exceeded"
  | Nat.succ fuel, l, acc, first =>
    match skipJsonWs l with
    | '}' :: r => if first then .ok (.obj acc, r) else .error "Unexpected token in JSON"
    | '"' :: r => do
      let key ← parseJsonStringBody (r.length + 1) r
      match skipJsonWs key.2 with
      | ':' :: r2 => do
        let v ← parseJsonValue fuel r2
        match skipJsonWs v.2 with
        | ',' :: r4 => parseJsonObjectBody fuel r4 (acc ++ [(String.mk key.1, v.1)]) false
        | '}' :: r4 => .ok (.obj (acc ++ [(String.mk key.1, v.1)]), r4)
        | _ => .error "Unexpected token in JSON"
      | _ => .error "Unexpected token in JSON"
    | _ => .error "Unexpected token in JSON"

/-- Elements of a JSON array after `[` (or after a separating comma when
`first` is false). -/
def parseJsonArrayBody : Nat → List Char → List JsVal → Bool →
    Except String (JsVal × List Char)
  | 0, _, _, _ => .error "JSON depth exceeded"
  | Nat.succ fuel, l, acc, first =>
    match skipJsonWs l with
    | ']' :: r =>
      if first then .ok (.arr acc, r)
      else .error "Unexpected token in JSON"
    | l2 => do
      let v ← parseJsonValue fuel l2
      match skipJsonWs v.2 with
      | ',' :: r4 => parseJsonArrayBody fuel r4 (acc ++ [v.1]) false
      | ']' :: r4 => .ok (.arr (acc ++ [v.1]), r4)
      | _ => .error "Unexpected token in JSON"

end

/-- `JSON.parse(text)` (thrown `SyntaxError`s become `.error`). -/
def jsonParse (s : String) : Except String JsVal := do
  let v ← parseJsonValue (2 * s.data.length + 2) s.data
  match skipJsonWs v.2 with
  | [] => .ok v.1
  | _ => .error "Unexpected non-whitespace character after JSON"

/-- Fractional-part digits of `num/den` by long division (at most `fuel`
digits). -/
def fracDigits : Nat → Nat → Nat → List Char
  | 0, _, _ => []
  | _, 0, _ => []
  | Nat.succ fuel, rem, den =>
    hexCharOfNat (rem * 10 / den % 10) :: fracDigits fuel (rem * 10 % den) den

/-- JavaScript number-to-string for the rationals this development
produces: integers print as integers; finite decimals print as decimals
(longer expansions are truncated at 20 digits -- unreachable here, since
every number in play comes from a decimal literal). -/
def ratToString (q : Rat) : String :=
  if q.den = 1 then toString q.num
  else
    let sign := if q.num < 0 then "-" else ""
    let na := q.num.natAbs
    sign ++ toString (na / q.den) ++ "." ++
      String.mk (fracDigits 20 (na % q.den) q.den)

/-- One character of a JSON-stringified string literal. -/
def escapeJsonChar (c : Char) : List Char :=
  if c == '"' then ['\\', '"']
  else if c == '\\' then ['\\', '\\']
  else if c == '\n' then ['\\', 'n']
  else if c == '\r' then ['\\', 'r']
  else if c == '\t' then ['\\', 't']
  else if c.toNat == 8 then ['\\', 'b']
  else if c.toNat == 12 then ['\\', 'f']
  else if c.toNat < 0x20 then
    ['\\', 'u', '0', '0', hexCharOfNat (c.toNat / 16), hexCharOfNat (c.toNat % 16)]
  else [c]

/-- `JSON.stringify` of a string. -/
def quoteJsonString (s : String) : String :=
  String.mk ('"' :: (s.data.map escapeJsonChar).flatten ++ ['"'])

/-- `JSON.stringify` of a `Uint8Array`: an object with index keys. -/
def stringifyBytes (bs : List Nat) : String :=
  "\x7b" ++ String.intercalate ","
    (((List.range bs.length).zip bs).map
      (fun ib => quoteJsonString (toString ib.1) ++ ":" ++ toString ib.2)) ++ "\x7d"

mutual

/-- `JSON.stringify(v)`; `none` models the `undefined` result. -/
def jsonStringify : JsVal → Option String
  | .undefinedVal => none
  | .null => some "null"
  | .bool b => some (if b then "true" else "false")
  | .num q => some (ratToString q)
  | .str s => some (quoteJsonString s)
  | .bytes bs => some (stringifyBytes bs)
  | .arr xs => some ("[" ++ String.intercalate "," (stringifyArrElems xs) ++ "]")
  | .obj fs => some ("\x7b" ++ String.intercalate "," (stringifyObjFields fs) ++ "\x7d")

/-- Array elements stringify with `undefined` rendered as `null`. -/
def stringifyArrElems : List JsVal → List String
  | [] => []
  | x :: xs =>
    (match jsonStringify x with
      | some s => s
      | none => "null") :: stringifyArrElems xs

/-- Object members stringify with `undefined`-valued keys dropped. -/
def stringifyObjFields : List (String × JsVal) → List String
  | [] => []
  | (k, v) :: fs =>
    match jsonStringify v with
    | some sv => (quoteJsonString k ++ ":" ++ sv) :: stringifyObjFields fs
    | none => stringifyObjFields fs

end

/-! ## Transport codec: constants and `PACKET_TYPES` -/

def JSON_FRAME_PREFIX_LENGTH : Nat := 4

def MAJOR_BINARY : Nat := 0x01
def MINOR_BINARY : Nat := 0x00
def MAJOR_JSON : Nat := 0x7B
def MINOR_JSON : Nat := 0x00

/-- `PACKET_TYPES`, reverse direction (wire code to name); `none` models
the `undefined` result of an unrecognized lookup. -/
def packetTypeName (b : Nat) : Option String :=
  if b == 0x00 then some "control"
  else if b == 0x01 then some "directed"
  else if b == 0x02 then some "broadcast"
  else none

/-- `PACKET_TYPES[q]` for a numeric (possibly non-integral) key, as used by
the type normalization in `encodeV7BPacket`. -/
def packetTypeNameQ (q : Rat) : Option String :=
  if q == 0 then some "control"
  else if q == 1 then some "directed"
  else if q == 2 then some "broadcast"
  else none

def jsOfOptStr : Option String → JsVal
  | some s => .str s
  | none => .undefinedVal

/-- Big-endian 16-bit read (`DataView.getUint16(off, false)`). -/
def getUint16BE (bytes : List Nat) (off : Nat) : Nat :=
  bytes.getD off 0 * 256 + bytes.getD (off + 1) 0

/-! ## Transport codec: v0x01 binary format -/

/-- In-memory packet as consumed by `encodeV1Packet`: exactly the
properties the function reads (`Option` models a possibly-absent
property).  Its `version.major` is the `0x01` that routed `encodePacket`
here; `minor` is `pkt.version.minor`. -/
structure EncPacketV1 where
  minor : Option Nat
  spread : Option Nat
  ttl : Option Nat
  type : JsVal
  flags : Option Nat
  from_node_id : Option String
  from_conn_id : Option String
  to_id : Option String
  to_sub_id : Option String
  message_id : Option String
  payload : JsVal

/-- `encodeV1Packet(pkt)`: fixed 88-byte envelope followed by the raw
payload.  The source fills a zeroed `Uint8Array` at offsets 0-7 (single
header bytes and the big-endian total length at 2), 8/24/40/56/72 (the
five 16-byte UUID fields) and 88 (payload); the writes are disjoint and
cover the buffer, so the result is this concatenation. -/
def encodeV1Packet (pkt : EncPacketV1) : Except String (List Nat) :=
  match pkt.payload with
  | .bytes payload =>
    if payload.length > MAX_PAYLOAD_SIZE then .error "Payload exceeds 60 KiB limit"
    else
      let totalLength := ROUTING_ENVELOPE_SIZE + payload.length
      (uuidToBytes pkt.from_node_id).bind fun fromNode =>
      (uuidToBytes pkt.from_conn_id).bind fun fromConn =>
      (uuidToBytes pkt.to_id).bind fun toId =>
      (uuidToBytes pkt.to_sub_id).bind fun toSub =>
      (uuidToBytes pkt.message_id).bind fun msgId =>
      .ok ([MAJOR_BINARY, pkt.minor.getD 0 % 256,
            totalLength % 65536 / 256, totalLength % 256,
            pkt.spread.getD 0 % 256, pkt.ttl.getD 0 % 256,
            jsToByte pkt.type, pkt.flags.getD 0 % 256] ++
           fromNode ++ fromConn ++ toId ++ toSub ++ msgId ++ payload)
  | _ => .error "v0x01 payload must be Uint8Array"

structure Version where
  major : Nat
  minor : Nat
  deriving DecidableEq

/-- The type-dependent `to` object built by `decodeV1Packet`. -/
inductive ToField where
  | nodeConn (node_id conn_id : String)
  | groupMsg (group_id message_type : String)
  deriving DecidableEq

/-- Packet produced by `decodeV1Packet`; `type` is
`PACKET_TYPES[bytes[6]]` (a name string, or `undefined` for an
unrecognized code); `toDest` models the source's `to` property and is
absent exactly when the `switch` on the type name fell through. -/
structure DecPacketV1 where
  version : Version
  spread : Nat
  ttl : Nat
  type : JsVal
  flags : Nat
  from_node_id : String
  from_conn_id : String
  message_id : String
  toDest : Option ToField
  payload : List Nat

/-- `decodeV1Packet(bytes)`. -/
def decodeV1Packet (bytes : List Nat) : Except String DecPacketV1 :=
  if bytes.length < ROUTING_ENVELOPE_SIZE then .error "Packet too small"
  else if getUint16BE bytes 2 ≠ bytes.length then .error "Packet length mismatch"
  else
    let payload := bytes.drop ROUTING_ENVELOPE_SIZE
    (bytesToUuid ((bytes.drop 8).take 16)).bind fun fromNode =>
    (bytesToUuid ((bytes.drop 24).take 16)).bind fun fromConn =>
    (bytesToUuid ((bytes.drop 72).take 16)).bind fun msgId =>
    (bytesToUuid ((bytes.drop 40).take 16)).bind fun destId =>
    (bytesToUuid ((bytes.drop 56).take 16)).bind fun destSub =>
    let tpe := packetTypeName (bytes.getD 6 0)
    .ok {
    version := ⟨MAJOR_BINARY, bytes.getD 1 0⟩
    spread := bytes.getD 4 0
    ttl := bytes.getD 5 0
    type := jsOfOptStr tpe
    flags := bytes.getD 7 0
    from_node_id := fromNode
    from_conn_id := fromConn
    message_id := msgId
    toDest := match tpe with
      | some "control" => some (.nodeConn destId destSub)
      | some "directed" => some (.nodeConn destId destSub)
      | some "broadcast" => some (.groupMsg destId destSub)
      | _ => none
    payload := payload }

/-! ## Transport codec: v0x7B JSON format -/

/-- The `pkt_header` object assembled by `encodeV7BPacket`, including the
numeric-type normalization applied right after (`PACKET_TYPES[pkt.type]`
when `typeof pkt.type === 'number'`).  `freshUuid` stands for the
`uuidv4()` result substituted for an absent `message_id`. -/
def mkV7BHeader (pkt : JsVal) (freshUuid : String) : JsVal :=
  let tp := match getField pkt "type" with
    | .num q => jsOfOptStr (packetTypeNameQ q)
    | v => v
  .obj [
    ("spread", if isNullish (getField pkt "spread") then .num 0 else getField pkt "spread"),
    ("ttl", getField pkt "ttl"),
    ("type", tp),
    ("flags", if isNullish (getField pkt "flags") then .num 0 else getField pkt "flags"),
    ("from", getField pkt "from"),
    ("to", getField pkt "to"),
    ("message_id", if isNullish (getField pkt "message_id") then .str freshUuid
      else getField pkt "message_id")]

/-- `encodeV7BPacket(pkt)`; `freshUuid` is the UUID-generation capability
used when `message_id` is absent.  The source's `setUint16(4,
header.length)` store is immediately overwritten by the header bytes
written at offset 4 (the JSON text of an object is at least two bytes),
so the produced frame is this concatenation. -/
def encodeV7BPacket (freshUuid : String) (pkt : JsVal) : Except String (List Nat) :=
  if !typeofIsObject pkt || jsIsNull pkt then .error "Packet must be an object"
  else
    let payloadData := match getField pkt "payload" with
      | .bytes bs => bs
      | .undefinedVal => []
      | .null => []
      | v => utf8Encode ((jsonStringify v).getD "undefined")
    if payloadData.length > MAX_PAYLOAD_SIZE then .error "Payload exceeds 60 KiB limit"
    else
      let pktHeader := mkV7BHeader pkt freshUuid
      if !validateRequiredFieldsByType pktHeader (getField pkt "payload") false then
        .error "Invalid message to agent (v0x7B)"
      else
        let header := utf8Encode ((jsonStringify pktHeader).getD "undefined")
        if header.length > MAX_JSON_ENVELOPE_SIZE then .error "JSON header too large"
        else
          let totalLength := JSON_FRAME_PREFIX_LENGTH + header.length + payloadData.length
          .ok ([MAJOR_JSON, MINOR_JSON, totalLength % 65536 / 256, totalLength % 256] ++
               header ++ payloadData)

/-- Result of `decodeV7BPacket`: the parsed header value (whose fields the
source spreads into the result object) together with `version` and the
payload view. -/
structure DecPacketV7B where
  header : JsVal
  version : Version
  payload : List Nat

/-- `decodeV7BPacket(buffer)`. -/
def decodeV7BPacket (buffer : List Nat) : Except String DecPacketV7B :=
  if buffer.length < JSON_FRAME_PREFIX_LENGTH then .error "Packet too short"
  else if buffer.getD 0 0 ≠ MAJOR_JSON ∨ buffer.getD 1 0 ≠ MINOR_JSON then
    .error ("Unsupported JSON packet version " ++ toString (buffer.getD 0 0) ++ "." ++
      toString (buffer.getD 1 0))
  else if getUint16BE buffer 2 ≠ buffer.length then .error "Packet length mismatch"
  else if getUint16BE buffer 4 = 0 ∨ getUint16BE buffer 4 > MAX_JSON_ENVELOPE_SIZE then
    .error "Invalid JSON header length"
  else if JSON_FRAME_PREFIX_LENGTH + getUint16BE buffer 4 > buffer.length then
    .error "Header exceeds packet bounds"
  else
    match jsonParse (utf8DecodeLossy
        ((buffer.drop JSON_FRAME_PREFIX_LENGTH).take (getUint16BE buffer 4))) with
    | .error _ => .error "Failed to parse JSON header"
    | .ok header =>
      if buffer.length - (JSON_FRAME_PREFIX_LENGTH + getUint16BE buffer 4) >
          MAX_PAYLOAD_SIZE then
        .error "Payload exceeds 60 KiB limit"
      else if !validateRequiredFieldsByType header
          (.bytes (buffer.drop (JSON_FRAME_PREFIX_LENGTH + getUint16BE buffer 4))) true then
        .error "Invalid message from agent (v0x7B)"
      else .ok { header := header, version := ⟨buffer.getD 0 0, buffer.getD 1 0⟩,
                 payload := buffer.drop (JSON_FRAME_PREFIX_LENGTH + getUint16BE buffer 4) }

/-- A decoded packet of either wire format. -/
inductive DecPacket where
  | v1 (p : DecPacketV1)
  | v7b (p : DecPacketV7B)

/-- `decodePacket(buffer)`: dispatch on the first wire byte (an absent
first byte of an empty buffer, `undefined` in the source, matches
neither version and falls through to the same unsupported-version
error). -/
def decodePacket (buffer : List Nat) : Except String DecPacket :=
  if buffer.getD 0 0 = MAJOR_BINARY then (decodeV1Packet buffer).map .v1
  else if buffer.getD 0 0 = MAJOR_JSON then (decodeV7BPacket buffer).map .v7b
  else .error ("Unsupported packet version byte: " ++ toString (buffer.getD 0 0))

/-- `decodeJsonPayload(msg)`: lossy UTF-8 decode of `msg.payload` (the
only property the source reads, so the model takes the payload bytes
directly), then `JSON.parse`. -/
def decodeJsonPayload (payload : List Nat) : Except String JsVal :=
  jsonParse (utf8DecodeLossy payload)

/-! ## Claim C1 -/

/-- A header satisfying every condition listed by claim C1: a
`message_id` of UUID shape, `from.node_id` of UUID shape, a string
`from.conn_id`, an integral `ttl` within the agent bounds, a recognized
`type`, and the type-appropriate `to` shape. -/
def c1Header : JsVal :=
  .obj [
    ("message_id", .str "00000000-0000-0000-0000-000000000000"),
    ("from", .obj [
      ("node_id", .str "11111111-1111-1111-1111-111111111111"),
      ("conn_id", .str "22222222-2222-2222-2222-222222222222")]),
    ("ttl", .num 1),
    ("type", .str "control"),
    ("to", .obj [
      ("node_id", .str "33333333-3333-3333-3333-333333333333"),
      ("conn_id", .str "44444444-4444-4444-4444-444444444444")])]

/-- The same header with the packet id stored under the key the validator
actually reads, `msg_id`. -/
def c1HeaderMsgId : JsVal :=
  .obj [
    ("msg_id", .str "00000000-0000-0000-0000-000000000000"),
    ("from", .obj [
      ("node_id", .str "11111111-1111-1111-1111-111111111111"),
      ("conn_id", .str "22222222-2222-2222-2222-222222222222")]),
    ("ttl", .num 1),
    ("type", .str "control"),
    ("to", .obj [
      ("node_id", .str "33333333-3333-3333-3333-333333333333"),
      ("conn_id", .str "44444444-4444-4444-4444-444444444444")])]

/-- C1: a header meeting every condition of the claim (in particular a
UUID-shaped `message_id`) is nevertheless rejected by
`validateRequiredFieldsByType`, because `isValidBaseFields` reads
`msg.msg_id` while the codec (and the claim) use `message_id`; storing
the same id under `msg_id` makes the very same header pass.  This
evaluates the code at the claim's failing input. -/
theorem C1_validate_header_msg_id_bug :
    validateRequiredFieldsByType c1Header (.bytes [1, 2, 3]) true = false ∧
    validateRequiredFieldsByType c1HeaderMsgId (.bytes [1, 2, 3]) true = true := by
  constructor
  · decide
  · decide

/-! ## Claim C8 -/

/-- A control header whose base fields all pass (under the `msg_id` key
the validator reads). -/
def c8Header : JsVal :=
  .obj [
    ("msg_id", .str "aaaaaaaa-bbbb-cccc-dddd-eeeeffff0000"),
    ("from", .obj [
      ("node_id", .str "aaaaaaaa-bbbb-cccc-dddd-eeeeffff0001"),
      ("conn_id", .str "conn-1")]),
    ("ttl", .num 0),
    ("type", .str "control"),
    ("to", .obj [
      ("node_id", .str "aaaaaaaa-bbbb-cccc-dddd-eeeeffff0002"),
      ("conn_id", .str "aaaaaaaa-bbbb-cccc-dddd-eeeeffff0003")])]

/-- C8 counterexample: a control header passes validation together with a
zero-length byte-array payload — an empty `Uint8Array` is truthy in
JavaScript, so the `!payload` guard does not fire. -/
theorem C8_counterexample :
    validateRequiredFieldsByType c8Header (.bytes []) true = true := by
  decide

/-- C8 (amended): for every header of type `control`, validation returns
false whenever the accompanying payload is absent (`undefined`/`null`) or
otherwise falsy (empty string, zero, false); a zero-length byte array,
being a truthy object, is not rejected by this check (see the
counterexample). -/
theorem C8_control_falsy_payload (msg payload : JsVal) (fromAgent : Bool)
    (htype : getField msg "type" = .str "control")
    (hfalsy : truthy payload = false) :
    validateRequiredFieldsByType msg payload fromAgent = false := by
  unfold validateRequiredFieldsByType
  rw [htype]
  split
  · rfl
  · simp [hfalsy]

/-- Witness for the amended C8 theorem at a concrete header and an absent
payload. -/
theorem C8_amended_witness :
    validateRequiredFieldsByType (.obj [("type", .str "control")]) .undefinedVal true = false :=
  C8_control_falsy_payload _ _ _ rfl rfl

/-! ## Claim C7 -/

theorem parsePairs_length (l : List Char) :
    (parsePairs l).length = (l.length + 1) / 2 := by
  match l with
  | [] => simp [parsePairs]
  | [c] => simp [parsePairs]
  | c1 :: c2 :: rest =>
    have ih := parsePairs_length rest
    simp only [parsePairs, List.length_cons, ih]
    omega

/-- C7 counterexample: a 36-character input of non-hex characters with
dashes at the canonical positions strips to 32 characters and is
accepted — `parseInt` leniency turns the non-hex pairs into bytes (here
all zero) — where the claim demands a `FormatError`. -/
theorem C7_counterexample :
    uuidToBytes (some "gggggggg-gggg-gggg-gggg-gggggggggggg") =
      .ok (List.replicate 16 0) := by
  rfl

/-- C7 (amended): `uuid_to_bytes` succeeds exactly when the dash-stripped
input has 32 characters — hexadecimality is *not* checked — and then
returns 16 bytes; a missing (`undefined`) input is rejected (with "UUID
required", as is the falsy empty string, while any other stripped length
gives "Invalid UUID format"). -/
theorem C7_uuidToBytes_length_check (u : String) :
    ((uuidToBytes (some u)).isOk = ((stripDashes u).length == 32)) ∧
    (∀ bs, uuidToBytes (some u) = .ok bs → bs.length = 16) ∧
    uuidToBytes none = .error "UUID required" := by
  refine ⟨?_, ?_, rfl⟩
  · by_cases he : u = ""
    · subst he; rfl
    · have h1 : (u == "") = false := by simpa using he
      by_cases hl : (stripDashes u).length = 32
      · simp [uuidToBytes, h1, hl, Except.isOk, Except.toBool]
      · simp [uuidToBytes, h1, hl, Except.isOk, Except.toBool]
  · intro bs hbs
    by_cases he : u = ""
    · rw [he] at hbs
      simp [uuidToBytes] at hbs
    · have h1 : (u == "") = false := by simpa using he
      by_cases hl : (stripDashes u).length = 32
      · simp only [uuidToBytes, h1, Bool.false_eq_true, if_false, hl] at hbs
        simp only [bne_self_eq_false, Bool.false_eq_true, if_false,
          Except.ok.injEq] at hbs
        rw [← hbs, parsePairs_length, hl]
      · simp only [uuidToBytes, h1, Bool.false_eq_true, if_false] at hbs
        rw [if_pos (by simpa using hl)] at hbs
        cases hbs

/-- Witness for the amended C7 theorem: a 32-hex-character input without
any dashes is accepted, and a missing input is rejected. -/
theorem C7_amended_witness :
    (uuidToBytes (some "0123456789abcdef0123456789abcdef")).isOk = true ∧
    uuidToBytes none = .error "UUID required" := by
  have h := C7_uuidToBytes_length_check "0123456789abcdef0123456789abcdef"
  exact ⟨by rw [h.1]; decide, h.2.2⟩

/-! ## Claim C3 -/

/-- C3: for every syntactically valid UUID text `u` (32 hexadecimal
digits, case-insensitive, with dashes at the canonical positions),
`bytes_to_uuid(uuid_to_bytes(u))` is exactly the lower-cased form of `u`
(its dashes already being at the canonical positions). -/
theorem C3_uuid_roundtrip (u : String) (h : isUuidShape u = true) :
    (uuidToBytes (some u)).bind bytesToUuid =
      .ok (String.mk (u.data.map Char.toLower)) := by
  obtain ⟨h1, _, h2⟩ := uuid_roundtrip_core u h
  rw [h1]
  exact h2

/-- Witness for C3 at a mixed-case UUID text. -/
theorem C3_witness :
    isUuidShape "AbCdEf01-2345-6789-aBcD-Ef0123456789" = true ∧
    (uuidToBytes (some "AbCdEf01-2345-6789-aBcD-Ef0123456789")).bind bytesToUuid =
      .ok "abcdef01-2345-6789-abcd-ef0123456789" := by
  constructor
  · decide
  · have h := C3_uuid_roundtrip "AbCdEf01-2345-6789-aBcD-Ef0123456789" (by decide)
    rw [h]
    rfl

/-! ## Claim C9 -/

theorem bytesToUuid_ok (l : List Nat) (h : l.length = 16) :
    ∃ s, bytesToUuid l = .ok s := by
  unfold bytesToUuid
  rw [h]
  exact ⟨_, rfl⟩

theorem slice16_length (bytes : List Nat) (k : Nat) (h : k + 16 ≤ bytes.length) :
    ((bytes.drop k).take 16).length = 16 := by
  simp only [List.length_take, List.length_drop]
  omega

/-- C9: binary decode of a frame of length at least 88 whose declared
total length matches and whose type code (byte 6) is not one of 0, 1, 2
succeeds, and the decoded packet's `to` is simply absent (its `type` is
`undefined`). -/
theorem C9_unknown_type_to_absent (bytes : List Nat)
    (hlen : ROUTING_ENVELOPE_SIZE ≤ bytes.length)
    (hbytes : ∀ b ∈ bytes, b < 256)
    (hdecl : getUint16BE bytes 2 = bytes.length)
    (h0 : bytes.getD 6 0 ≠ 0) (h1 : bytes.getD 6 0 ≠ 1) (h2 : bytes.getD 6 0 ≠ 2) :
    ∃ q, decodeV1Packet bytes = .ok q ∧ q.toDest = none ∧ q.type = JsVal.undefinedVal := by
  simp only [ROUTING_ENVELOPE_SIZE] at hlen
  have htype : packetTypeName (bytes.getD 6 0) = none := by
    unfold packetTypeName
    rw [if_neg (by simpa using h0), if_neg (by simpa using h1),
      if_neg (by simpa using h2)]
  obtain ⟨s1, hs1⟩ := bytesToUuid_ok ((bytes.drop 8).take 16)
    (slice16_length _ _ (by omega))
  obtain ⟨s2, hs2⟩ := bytesToUuid_ok ((bytes.drop 24).take 16)
    (slice16_length _ _ (by omega))
  obtain ⟨s3, hs3⟩ := bytesToUuid_ok ((bytes.drop 72).take 16)
    (slice16_length _ _ (by omega))
  obtain ⟨s4, hs4⟩ := bytesToUuid_ok ((bytes.drop 40).take 16)
    (slice16_length _ _ (by omega))
  obtain ⟨s5, hs5⟩ := bytesToUuid_ok ((bytes.drop 56).take 16)
    (slice16_length _ _ (by omega))
  unfold decodeV1Packet
  simp only [ROUTING_ENVELOPE_SIZE]
  rw [if_neg (by omega), if_neg (by omega)]
  rw [hs1, hs2, hs3, hs4, hs5]
  simp only [Except.bind, htype]
  exact ⟨_, rfl, rfl, rfl⟩

/-- Witness buffer for C9: a well-framed 88-byte binary frame with type
code 7. -/
def c9buf : List Nat := [1, 0, 0, 88, 0, 0, 7, 0] ++ List.replicate 80 0

/-- Witness for C9 at `c9buf`. -/
theorem C9_witness :
    ∃ q, decodeV1Packet c9buf = .ok q ∧ q.toDest = none ∧ q.type = JsVal.undefinedVal := by
  apply C9_unknown_type_to_absent
  · decide
  · decide
  · decide
  · decide
  · decide
  · decide

/-! ## Claim C4 -/

/-- C4: a declared total length differing from the actual buffer length
makes `decode_packet` fail rather than return a packet: with the
envelope prefix intact (binary: first byte 0x01 and length ≥ 88; JSON:
first bytes 0x7B, 0x00 and length ≥ 4) the error is exactly the length
mismatch, and for any buffer of either format no packet is returned. -/
theorem C4_length_mismatch (bytes : List Nat)
    (hdecl : getUint16BE bytes 2 ≠ bytes.length) :
    (bytes.getD 0 0 = 0x01 → ROUTING_ENVELOPE_SIZE ≤ bytes.length →
      decodePacket bytes = .error "Packet length mismatch") ∧
    (bytes.getD 0 0 = 0x7B → bytes.getD 1 0 = 0 →
      JSON_FRAME_PREFIX_LENGTH ≤ bytes.length →
      decodePacket bytes = .error "Packet length mismatch") ∧
    ((bytes.getD 0 0 = 0x01 ∨ bytes.getD 0 0 = 0x7B) →
      ∀ q, decodePacket bytes ≠ .ok q) := by
  have ha : bytes.getD 0 0 = 0x01 → ROUTING_ENVELOPE_SIZE ≤ bytes.length →
      decodePacket bytes = .error "Packet length mismatch" := by
    intro hmaj hlen
    unfold decodePacket
    rw [if_pos (show bytes.getD 0 0 = MAJOR_BINARY from hmaj)]
    unfold decodeV1Packet
    rw [if_neg (show ¬bytes.length < ROUTING_ENVELOPE_SIZE by omega), if_pos hdecl]
    rfl
  have hb : bytes.getD 0 0 = 0x7B → bytes.getD 1 0 = 0 →
      JSON_FRAME_PREFIX_LENGTH ≤ bytes.length →
      decodePacket bytes = .error "Packet length mismatch" := by
    intro hmaj hmin hlen
    unfold decodePacket
    rw [if_neg (show ¬bytes.getD 0 0 = MAJOR_BINARY by intro h; rw [hmaj] at h; simp [MAJOR_BINARY] at h),
      if_pos (show bytes.getD 0 0 = MAJOR_JSON from hmaj)]
    unfold decodeV7BPacket
    rw [if_neg (show ¬bytes.length < JSON_FRAME_PREFIX_LENGTH by omega),
      if_neg (show ¬(bytes.getD 0 0 ≠ MAJOR_JSON ∨ bytes.getD 1 0 ≠ MINOR_JSON) by
        rintro (h | h)
        exacts [h hmaj, h hmin]),
      if_pos hdecl]
    rfl
  refine ⟨ha, hb, ?_⟩
  rintro (hmaj | hmaj) q
  · by_cases hlen : ROUTING_ENVELOPE_SIZE ≤ bytes.length
    · rw [ha hmaj hlen]
      simp
    · unfold decodePacket
      rw [if_pos (show bytes.getD 0 0 = MAJOR_BINARY from hmaj)]
      unfold decodeV1Packet
      rw [if_pos (by omega)]
      simp [Except.map]
  · by_cases hlen : JSON_FRAME_PREFIX_LENGTH ≤ bytes.length
    · by_cases hmin : bytes.getD 1 0 = 0
      · rw [hb hmaj hmin hlen]
        simp
      · unfold decodePacket
        rw [if_neg (show ¬bytes.getD 0 0 = MAJOR_BINARY by intro h; rw [hmaj] at h; simp [MAJOR_BINARY] at h),
          if_pos (show bytes.getD 0 0 = MAJOR_JSON from hmaj)]
        unfold decodeV7BPacket
        rw [if_neg (show ¬bytes.length < JSON_FRAME_PREFIX_LENGTH by omega),
          if_pos (Or.inr (show bytes.getD 1 0 ≠ MINOR_JSON from hmin))]
        simp [Except.map]
    · unfold decodePacket
      rw [if_neg (show ¬bytes.getD 0 0 = MAJOR_BINARY by intro h; rw [hmaj] at h; simp [MAJOR_BINARY] at h),
        if_pos (show bytes.getD 0 0 = MAJOR_JSON from hmaj)]
      unfold decodeV7BPacket
      rw [if_pos (by omega)]
      simp [Except.map]

/-- Witness for C4: a binary frame whose declared length is 89 while its
actual length is 88, and a JSON frame declaring 5 with actual length 4;
both fail with the length mismatch error. -/
theorem C4_witness :
    decodePacket ([1, 0, 0, 89, 0, 0, 0, 0] ++ List.replicate 80 0) =
      .error "Packet length mismatch" ∧
    decodePacket [0x7B, 0, 0, 5] = .error "Packet length mismatch" := by
  constructor
  · exact (C4_length_mismatch _ (by decide)).1 (by decide) (by decide)
  · exact (C4_length_mismatch _ (by decide)).2.1 (by decide) (by decide) (by decide)

/-! ## Shared helpers for the encode-path claims -/

/-- An argument on which `uuidToBytes` succeeds: present, non-empty, and
stripping to 32 characters. -/
def uuidArgOk (u : Option String) : Prop :=
  ∃ s, u = some s ∧ s ≠ "" ∧ (stripDashes s).length = 32

theorem uuidToBytes_ok_of (u : Option String) (h : uuidArgOk u) :
    ∃ bs, uuidToBytes u = .ok bs := by
  obtain ⟨s, rfl, hne, hlen⟩ := h
  simp only [uuidToBytes]
  rw [if_neg (by simp [hne]), if_neg (by simp [hlen])]
  exact ⟨_, rfl⟩

/-- The header assembled by `encodeV7BPacket` carries its id under
`message_id`; it has no `msg_id` property. -/
theorem getField_mkV7BHeader_msg_id (pkt : JsVal) (freshUuid : String) :
    getField (mkV7BHeader pkt freshUuid) "msg_id" = .undefinedVal := by
  rfl

/-- The header assembled by `encodeV7BPacket` never validates: the
validator reads `msg.msg_id`, which the header does not carry. -/
theorem mkV7BHeader_not_valid (pkt : JsVal) (freshUuid : String) (payload : JsVal)
    (fromAgent : Bool) :
    validateRequiredFieldsByType (mkV7BHeader pkt freshUuid) payload fromAgent = false := by
  have hbase : isValidBaseFields (mkV7BHeader pkt freshUuid) fromAgent = false := by
    unfold isValidBaseFields
    rw [getField_mkV7BHeader_msg_id]
    simp [mkV7BHeader, typeofIsObject, jsIsNull, isFastUuid]
  unfold validateRequiredFieldsByType
  rw [hbase]
  rfl

/-! ## Claim C5 -/

/-- C5: the 61,440-byte payload ceiling.  (1) Binary encode succeeds at
exactly 61,440 payload bytes when the five UUID fields are well-formed;
(2) binary encode of 61,441 bytes or more fails with the payload-size
error; (3) the same ceiling guards the JSON encode path: 61,441 payload
bytes or more fail with the same error there; (4) on the JSON path a
61,440-byte payload passes the size check — the encode then fails with
the (unrelated) header-validation error, not the payload-size error. -/
theorem C5_payload_ceiling :
    (∀ (pkt : EncPacketV1) (bs : List Nat), pkt.payload = .bytes bs →
      bs.length = 61440 →
      uuidArgOk pkt.from_node_id → uuidArgOk pkt.from_conn_id → uuidArgOk pkt.to_id →
      uuidArgOk pkt.to_sub_id → uuidArgOk pkt.message_id →
      (encodeV1Packet pkt).isOk = true) ∧
    (∀ (pkt : EncPacketV1) (bs : List Nat), pkt.payload = .bytes bs →
      61441 ≤ bs.length →
      encodeV1Packet pkt = .error "Payload exceeds 60 KiB limit") ∧
    (∀ (freshUuid : String) (pkt : JsVal) (bs : List Nat),
      typeofIsObject pkt = true → jsIsNull pkt = false →
      getField pkt "payload" = .bytes bs → 61441 ≤ bs.length →
      encodeV7BPacket freshUuid pkt = .error "Payload exceeds 60 KiB limit") ∧
    (∀ (freshUuid : String) (pkt : JsVal) (bs : List Nat),
      typeofIsObject pkt = true → jsIsNull pkt = false →
      getField pkt "payload" = .bytes bs → bs.length = 61440 →
      encodeV7BPacket freshUuid pkt = .error "Invalid message to agent (v0x7B)") := by
  refine ⟨?_, ?_, ?_, ?_⟩
  · intro pkt bs hp hlen h1 h2 h3 h4 h5
    obtain ⟨b1, hb1⟩ := uuidToBytes_ok_of _ h1
    obtain ⟨b2, hb2⟩ := uuidToBytes_ok_of _ h2
    obtain ⟨b3, hb3⟩ := uuidToBytes_ok_of _ h3
    obtain ⟨b4, hb4⟩ := uuidToBytes_ok_of _ h4
    obtain ⟨b5, hb5⟩ := uuidToBytes_ok_of _ h5
    unfold encodeV1Packet
    rw [hp]
    dsimp only
    rw [if_neg (by rw [hlen]; decide)]
    rw [hb1, hb2, hb3, hb4, hb5]
    rfl
  · intro pkt bs hp hlen
    unfold encodeV1Packet
    rw [hp]
    dsimp only
    rw [if_pos (by simp only [MAX_PAYLOAD_SIZE]; omega)]
  · intro freshUuid pkt bs hobj hnn hp hlen
    unfold encodeV7BPacket
    rw [if_neg (by simp [hobj, hnn])]
    rw [hp]
    dsimp only
    rw [if_pos (by simp only [MAX_PAYLOAD_SIZE]; omega)]
  · intro freshUuid pkt bs hobj hnn hp hlen
    unfold encodeV7BPacket
    rw [if_neg (by simp [hobj, hnn])]
    rw [hp]
    dsimp only
    rw [if_neg (by rw [hlen]; decide)]
    rw [mkV7BHeader_not_valid]
    rfl

/-- Witness packet for C5 part (1): 61,440 payload bytes, all UUID fields
well-formed. -/
def c5pkt : EncPacketV1 :=
  { minor := some 0, spread := some 0, ttl := some 3, type := .num 1,
    flags := some 0,
    from_node_id := some "11111111-1111-1111-1111-111111111111",
    from_conn_id := some "22222222-2222-2222-2222-222222222222",
    to_id := some "33333333-3333-3333-3333-333333333333",
    to_sub_id := some "44444444-4444-4444-4444-444444444444",
    message_id := some "55555555-5555-5555-5555-555555555555",
    payload := .bytes (List.replicate 61440 7) }

/-- Witness for C5: the boundary payload encodes; one byte more fails
with the payload-size error (in both formats). -/
theorem C5_witness :
    (encodeV1Packet c5pkt).isOk = true ∧
    encodeV1Packet { c5pkt with payload := .bytes (List.replicate 61441 7) } =
      .error "Payload exceeds 60 KiB limit" ∧
    encodeV7BPacket "55555555-5555-5555-5555-555555555555"
        (.obj [("payload", .bytes (List.replicate 61441 7))]) =
      .error "Payload exceeds 60 KiB limit" := by
  have h := C5_payload_ceiling
  refine ⟨?_, ?_, ?_⟩
  · exact h.1 c5pkt (List.replicate 61440 7) rfl (by rw [List.length_replicate])
      ⟨_, rfl, by decide, by decide⟩ ⟨_, rfl, by decide, by decide⟩
      ⟨_, rfl, by decide, by decide⟩ ⟨_, rfl, by decide, by decide⟩
      ⟨_, rfl, by decide, by decide⟩
  · exact h.2.1 _ (List.replicate 61441 7) rfl (by rw [List.length_replicate])
  · exact h.2.2.1 _ _ (List.replicate 61441 7) rfl rfl rfl (by rw [List.length_replicate])

/-! ## Claim C6 -/

/-- An otherwise fully valid binary packet with `message_id` absent. -/
def c6pkt : EncPacketV1 :=
  { minor := some 0, spread := some 0, ttl := some 3, type := .num 1,
    flags := some 0,
    from_node_id := some "11111111-1111-1111-1111-111111111111",
    from_conn_id := some "22222222-2222-2222-2222-222222222222",
    to_id := some "33333333-3333-3333-3333-333333333333",
    to_sub_id := some "44444444-4444-4444-4444-444444444444",
    message_id := none,
    payload := .bytes [1, 2, 3] }

/-- An otherwise fully valid v0x7B packet with `message_id` absent. -/
def c6objPkt : JsVal :=
  .obj [
    ("spread", .num 0),
    ("ttl", .num 1),
    ("type", .str "direct"),
    ("from", .obj [
      ("node_id", .str "11111111-1111-1111-1111-111111111111"),
      ("conn_id", .str "22222222-2222-2222-2222-222222222222")]),
    ("to", .obj [
      ("node_id", .str "33333333-3333-3333-3333-333333333333"),
      ("conn_id", .str "44444444-4444-4444-4444-444444444444")]),
    ("payload", .bytes [1, 2, 3])]

/-- C6 counterexample: with `message_id` absent, encode does *not*
succeed in either format: the binary encoder calls
`uuidToBytes(undefined)` and throws "UUID required" (it has no generation
step), and the JSON encoder — which does substitute a fresh UUID — still
fails its header validation. -/
theorem C6_counterexample :
    encodeV1Packet c6pkt = .error "UUID required" ∧
    (encodeV7BPacket "99999999-9999-9999-9999-999999999999" c6objPkt).isOk = false := by
  exact ⟨rfl, rfl⟩

/-- C6 (amended): on the binary path a packet with `message_id` absent
always fails with "UUID required" (no UUID is generated); on the JSON
path the assembled header does carry a freshly generated UUID when
`message_id` is absent, but `encodeV7BPacket` never succeeds anyway,
failing header validation (the `msg_id` slip) for every input. -/
theorem C6_message_id_required (pkt : EncPacketV1) (bs : List Nat)
    (hp : pkt.payload = .bytes bs) (hlen : bs.length ≤ 61440)
    (h1 : uuidArgOk pkt.from_node_id) (h2 : uuidArgOk pkt.from_conn_id)
    (h3 : uuidArgOk pkt.to_id) (h4 : uuidArgOk pkt.to_sub_id)
    (hm : pkt.message_id = none) :
    encodeV1Packet pkt = .error "UUID required" ∧
    (∀ (freshUuid : String) (p : JsVal), getField p "message_id" = .undefinedVal →
      getField (mkV7BHeader p freshUuid) "message_id" = .str freshUuid) ∧
    (∀ (freshUuid : String) (p : JsVal),
      (encodeV7BPacket freshUuid p).isOk = false) := by
  refine ⟨?_, ?_, ?_⟩
  · obtain ⟨b1, hb1⟩ := uuidToBytes_ok_of _ h1
    obtain ⟨b2, hb2⟩ := uuidToBytes_ok_of _ h2
    obtain ⟨b3, hb3⟩ := uuidToBytes_ok_of _ h3
    obtain ⟨b4, hb4⟩ := uuidToBytes_ok_of _ h4
    unfold encodeV1Packet
    rw [hp]
    dsimp only
    rw [if_neg (by simp only [MAX_PAYLOAD_SIZE]; omega)]
    rw [hb1, hb2, hb3, hb4, hm]
    rfl
  · intro freshUuid p hmid
    have hval : getField (mkV7BHeader p freshUuid) "message_id" =
        (if isNullish (getField p "message_id") then .str freshUuid
         else getField p "message_id") := rfl
    rw [hval, hmid]
    rfl
  · intro freshUuid p
    simp only [encodeV7BPacket, mkV7BHeader_not_valid, Bool.not_false, if_true]
    split
    · rfl
    · split
      · rfl
      · rfl

/-- Witness for the amended C6 theorem at concrete packets. -/
theorem C6_amended_witness :
    encodeV1Packet c6pkt = .error "UUID required" ∧
    getField (mkV7BHeader (.obj []) "99999999-9999-9999-9999-999999999999")
      "message_id" = .str "99999999-9999-9999-9999-999999999999" ∧
    (encodeV7BPacket "99999999-9999-9999-9999-999999999999" c6objPkt).isOk = false := by
  have h := C6_message_id_required c6pkt [1, 2, 3] rfl (by decide)
    ⟨_, rfl, by decide, by decide⟩ ⟨_, rfl, by decide, by decide⟩
    ⟨_, rfl, by decide, by decide⟩ ⟨_, rfl, by decide, by decide⟩ rfl
  exact ⟨h.1, h.2.1 _ _ rfl, h.2.2 _ _⟩

/-! ## Claim C2 -/

theorem take_append_len {α : Type} (l₁ l₂ : List α) (n : Nat) (h : l₁.length = n) :
    (l₁ ++ l₂).take n = l₁ := by
  subst h
  exact List.take_left l₁ l₂

theorem drop_append_len {α : Type} (l₁ l₂ : List α) (n : Nat) (h : l₁.length = n) :
    (l₁ ++ l₂).drop n = l₂ := by
  subst h
  exact List.drop_left l₁ l₂

theorem drop_append_len_add {α : Type} (l₁ l₂ : List α) (n k : Nat) (h : l₁.length = n) :
    (l₁ ++ l₂).drop (n + k) = l₂.drop k := by
  subst h
  rw [← List.drop_drop, List.drop_left]

/-- The `Uint8Array` store of a natural-valued JavaScript number. -/
theorem jsToByte_natCast (n : Nat) : jsToByte (.num (n : Rat)) = n % 256 := by
  unfold jsToByte toNumber truncRat
  dsimp only
  rw [if_pos (by positivity)]
  have hf : Rat.floor ((n : Rat)) = (n : Int) := rfl
  rw [hf]
  omega

/-- An optional UUID field holding canonical (lower-case, well-shaped)
UUID text. -/
def canonicalUuidArg (u : Option String) : Prop :=
  ∃ s, u = some s ∧ isUuidShape s = true ∧ s.data.map Char.toLower = s.data

theorem canonicalUuid_spec (u : Option String) (h : canonicalUuidArg u) :
    ∃ s bs, u = some s ∧ uuidToBytes u = .ok bs ∧ bs.length = 16 ∧
      bytesToUuid bs = .ok s := by
  obtain ⟨s, rfl, hsh, hlc⟩ := h
  obtain ⟨h1, h2, h3⟩ := uuid_roundtrip_core s hsh
  refine ⟨s, _, rfl, h1, ?_, ?_⟩
  · rw [parsePairs_length, h2]
  · rw [hlc] at h3
    exact h3

/-- Decoding the frame produced by `encodeV1Packet` (with clean header
bytes and five 16-byte UUID fields). -/
theorem decodeV1_concat (m sp t ct fl : Nat) (b1 b2 b3 b4 b5 bs : List Nat)
    (u1 u2 u3 u4 u5 : String)
    (hl1 : b1.length = 16) (hl2 : b2.length = 16) (hl3 : b3.length = 16)
    (hl4 : b4.length = 16) (hl5 : b5.length = 16) (hbs : bs.length ≤ 61440)
    (hd1 : bytesToUuid b1 = .ok u1) (hd2 : bytesToUuid b2 = .ok u2)
    (hd3 : bytesToUuid b3 = .ok u3) (hd4 : bytesToUuid b4 = .ok u4)
    (hd5 : bytesToUuid b5 = .ok u5) :
    decodeV1Packet (1 :: m :: ((88 + bs.length) % 65536 / 256) ::
        ((88 + bs.length) % 256) :: sp :: t :: ct :: fl ::
        (b1 ++ (b2 ++ (b3 ++ (b4 ++ (b5 ++ bs)))))) =
      .ok { version := ⟨1, m⟩, spread := sp, ttl := t,
            type := jsOfOptStr (packetTypeName ct), flags := fl,
            from_node_id := u1, from_conn_id := u2, message_id := u5,
            toDest := match packetTypeName ct with
              | some "control" => some (.nodeConn u3 u4)
              | some "directed" => some (.nodeConn u3 u4)
              | some "broadcast" => some (.groupMsg u3 u4)
              | _ => none,
            payload := bs } := by
  have hlen : (1 :: m :: ((88 + bs.length) % 65536 / 256) ::
      ((88 + bs.length) % 256) :: sp :: t :: ct :: fl ::
      (b1 ++ (b2 ++ (b3 ++ (b4 ++ (b5 ++ bs)))))).length = 88 + bs.length := by
    simp only [List.length_cons, List.length_append, hl1, hl2, hl3, hl4, hl5]
    omega
  have h24 : (1 :: m :: ((88 + bs.length) % 65536 / 256) ::
      ((88 + bs.length) % 256) :: sp :: t :: ct :: fl ::
      (b1 ++ (b2 ++ (b3 ++ (b4 ++ (b5 ++ bs)))))).drop 24 =
      b2 ++ (b3 ++ (b4 ++ (b5 ++ bs))) :=
    drop_append_len b1 _ 16 hl1
  have h40 : (1 :: m :: ((88 + bs.length) % 65536 / 256) ::
      ((88 + bs.length) % 256) :: sp :: t :: ct :: fl ::
      (b1 ++ (b2 ++ (b3 ++ (b4 ++ (b5 ++ bs)))))).drop 40 =
      b3 ++ (b4 ++ (b5 ++ bs)) := by
    have a1 : (b1 ++ (b2 ++ (b3 ++ (b4 ++ (b5 ++ bs))))).drop (16 + 16) =
        (b2 ++ (b3 ++ (b4 ++ (b5 ++ bs)))).drop 16 :=
      drop_append_len_add b1 _ 16 16 hl1
    rw [show (40 : Nat) = 8 + 32 from rfl]
    calc (1 :: m :: _ :: _ :: sp :: t :: ct :: fl ::
          (b1 ++ (b2 ++ (b3 ++ (b4 ++ (b5 ++ bs)))))).drop (8 + 32) =
        (b1 ++ (b2 ++ (b3 ++ (b4 ++ (b5 ++ bs))))).drop 32 := rfl
      _ = (b2 ++ (b3 ++ (b4 ++ (b5 ++ bs)))).drop 16 := a1
      _ = b3 ++ (b4 ++ (b5 ++ bs)) := drop_append_len b2 _ 16 hl2
  have h56 : (1 :: m :: ((88 + bs.length) % 65536 / 256) ::
      ((88 + bs.length) % 256) :: sp :: t :: ct :: fl ::
      (b1 ++ (b2 ++ (b3 ++ (b4 ++ (b5 ++ bs)))))).drop 56 =
      b4 ++ (b5 ++ bs) := by
    calc (1 :: m :: _ :: _ :: sp :: t :: ct :: fl ::
          (b1 ++ (b2 ++ (b3 ++ (b4 ++ (b5 ++ bs)))))).drop 56 =
        (b1 ++ (b2 ++ (b3 ++ (b4 ++ (b5 ++ bs))))).drop 48 := rfl
      _ = (b2 ++ (b3 ++ (b4 ++ (b5 ++ bs)))).drop 32 :=
        drop_append_len_add b1 _ 16 32 hl1
      _ = (b3 ++ (b4 ++ (b5 ++ bs))).drop 16 := drop_append_len_add b2 _ 16 16 hl2
      _ = b4 ++ (b5 ++ bs) := drop_append_len b3 _ 16 hl3
  have h72 : (1 :: m :: ((88 + bs.length) % 65536 / 256) ::
      ((88 + bs.length) % 256) :: sp :: t :: ct :: fl ::
      (b1 ++ (b2 ++ (b3 ++ (b4 ++ (b5 ++ bs)))))).drop 72 =
      b5 ++ bs := by
    calc (1 :: m :: _ :: _ :: sp :: t :: ct :: fl ::
          (b1 ++ (b2 ++ (b3 ++ (b4 ++ (b5 ++ bs)))))).drop 72 =
        (b1 ++ (b2 ++ (b3 ++ (b4 ++ (b5 ++ bs))))).drop 64 := rfl
      _ = (b2 ++ (b3 ++ (b4 ++ (b5 ++ bs)))).drop 48 :=
        drop_append_len_add b1 _ 16 48 hl1
      _ = (b3 ++ (b4 ++ (b5 ++ bs))).drop 32 := drop_append_len_add b2 _ 16 32 hl2
      _ = (b4 ++ (b5 ++ bs)).drop 16 := drop_append_len_add b3 _ 16 16 hl3
      _ = b5 ++ bs := drop_append_len b4 _ 16 hl4
  have h88 : (1 :: m :: ((88 + bs.length) % 65536 / 256) ::
      ((88 + bs.length) % 256) :: sp :: t :: ct :: fl ::
      (b1 ++ (b2 ++ (b3 ++ (b4 ++ (b5 ++ bs)))))).drop 88 = bs := by
    calc (1 :: m :: _ :: _ :: sp :: t :: ct :: fl ::
          (b1 ++ (b2 ++ (b3 ++ (b4 ++ (b5 ++ bs)))))).drop 88 =
        (b1 ++ (b2 ++ (b3 ++ (b4 ++ (b5 ++ bs))))).drop 80 := rfl
      _ = (b2 ++ (b3 ++ (b4 ++ (b5 ++ bs)))).drop 64 :=
        drop_append_len_add b1 _ 16 64 hl1
      _ = (b3 ++ (b4 ++ (b5 ++ bs))).drop 48 := drop_append_len_add b2 _ 16 48 hl2
      _ = (b4 ++ (b5 ++ bs)).drop 32 := drop_append_len_add b3 _ 16 32 hl3
      _ = (b5 ++ bs).drop 16 := drop_append_len_add b4 _ 16 16 hl4
      _ = bs := drop_append_len b5 _ 16 hl5
  have s8 : ((1 :: m :: ((88 + bs.length) % 65536 / 256) ::
      ((88 + bs.length) % 256) :: sp :: t :: ct :: fl ::
      (b1 ++ (b2 ++ (b3 ++ (b4 ++ (b5 ++ bs)))))).drop 8).take 16 = b1 :=
    take_append_len b1 _ 16 hl1
  have s24 : ((1 :: m :: ((88 + bs.length) % 65536 / 256) ::
      ((88 + bs.length) % 256) :: sp :: t :: ct :: fl ::
      (b1 ++ (b2 ++ (b3 ++ (b4 ++ (b5 ++ bs)))))).drop 24).take 16 = b2 := by
    rw [h24]
    exact take_append_len b2 _ 16 hl2
  have s40 : ((1 :: m :: ((88 + bs.length) % 65536 / 256) ::
      ((88 + bs.length) % 256) :: sp :: t :: ct :: fl ::
      (b1 ++ (b2 ++ (b3 ++ (b4 ++ (b5 ++ bs)))))).drop 40).take 16 = b3 := by
    rw [h40]
    exact take_append_len b3 _ 16 hl3
  have s56 : ((1 :: m :: ((88 + bs.length) % 65536 / 256) ::
      ((88 + bs.length) % 256) :: sp :: t :: ct :: fl ::
      (b1 ++ (b2 ++ (b3 ++ (b4 ++ (b5 ++ bs)))))).drop 56).take 16 = b4 := by
    rw [h56]
    exact take_append_len b4 _ 16 hl4
  have s72 : ((1 :: m :: ((88 + bs.length) % 65536 / 256) ::
      ((88 + bs.length) % 256) :: sp :: t :: ct :: fl ::
      (b1 ++ (b2 ++ (b3 ++ (b4 ++ (b5 ++ bs)))))).drop 72).take 16 = b5 := by
    rw [h72]
    exact take_append_len b5 _ 16 hl5
  have hg : getUint16BE (1 :: m :: ((88 + bs.length) % 65536 / 256) ::
      ((88 + bs.length) % 256) :: sp :: t :: ct :: fl ::
      (b1 ++ (b2 ++ (b3 ++ (b4 ++ (b5 ++ bs)))))) 2 =
      (88 + bs.length) % 65536 / 256 * 256 + (88 + bs.length) % 256 := rfl
  unfold decodeV1Packet
  simp only [ROUTING_ENVELOPE_SIZE]
  rw [if_neg (by rw [hlen]; omega),
    if_neg (by rw [hg, hlen]; omega)]
  rw [s8, s24, s40, s56, s72, hd1, hd2, hd3, hd4, hd5]
  simp only [Except.bind]
  rw [h88]
  rfl

/-- The frame produced by `encodeV1Packet` on a packet with all header
fields present and in byte range. -/
theorem encodeV1_concat (pkt : EncPacketV1) (bs : List Nat) (m sp t fl ct : Nat)
    (b1 b2 b3 b4 b5 : List Nat)
    (hp : pkt.payload = .bytes bs) (hlen : bs.length ≤ 61440)
    (hm : pkt.minor = some m) (hmlt : m < 256)
    (hsp : pkt.spread = some sp) (hsplt : sp < 256)
    (ht : pkt.ttl = some t) (htlt : t < 256)
    (hfl : pkt.flags = some fl) (hfllt : fl < 256)
    (hct : pkt.type = .num (ct : Rat)) (hctlt : ct < 256)
    (hb1 : uuidToBytes pkt.from_node_id = .ok b1)
    (hb2 : uuidToBytes pkt.from_conn_id = .ok b2)
    (hb3 : uuidToBytes pkt.to_id = .ok b3)
    (hb4 : uuidToBytes pkt.to_sub_id = .ok b4)
    (hb5 : uuidToBytes pkt.message_id = .ok b5) :
    encodeV1Packet pkt = .ok (1 :: m :: ((88 + bs.length) % 65536 / 256) ::
      ((88 + bs.length) % 256) :: sp :: t :: ct :: fl ::
      (b1 ++ (b2 ++ (b3 ++ (b4 ++ (b5 ++ bs)))))) := by
  unfold encodeV1Packet
  rw [hp]
  dsimp only
  rw [if_neg (by simp only [MAX_PAYLOAD_SIZE]; omega)]
  rw [hb1, hb2, hb3, hb4, hb5]
  simp only [Except.bind]
  rw [hm, hsp, ht, hfl, hct, jsToByte_natCast]
  simp only [Option.getD_some, MAJOR_BINARY, ROUTING_ENVELOPE_SIZE,
    Nat.mod_eq_of_lt hmlt, Nat.mod_eq_of_lt hsplt, Nat.mod_eq_of_lt htlt,
    Nat.mod_eq_of_lt hfllt, Nat.mod_eq_of_lt hctlt]
  simp [List.append_assoc]

/-- C2 (amended): for every packet encodable in format v1.0 — payload a
byte sequence of at most 61,440 bytes, all five UUID fields present as
canonical lower-case UUID text, header bytes present and in range, and
`type` a numeric wire code below 3 — `decode_packet(encode_packet(p))`
reproduces version, spread, ttl, flags, from, message_id and the payload
bytes exactly, reconstructs `to` as `{node_id, conn_id}` for codes 0/1
(control/directed) and `{group_id, message_type}` for code 2 (broadcast),
and yields `type` as the *string name* of p's numeric wire code — not the
numeric code itself (see the counterexample). -/
theorem C2_roundtrip_amended (pkt : EncPacketV1) (bs : List Nat) (m sp t fl ct : Nat)
    (hp : pkt.payload = .bytes bs) (hlen : bs.length ≤ 61440)
    (hm : pkt.minor = some m) (hmlt : m < 256)
    (hsp : pkt.spread = some sp) (hsplt : sp < 256)
    (ht : pkt.ttl = some t) (htlt : t < 256)
    (hfl : pkt.flags = some fl) (hfllt : fl < 256)
    (hct : pkt.type = .num (ct : Rat)) (hctlt : ct < 3)
    (h1 : canonicalUuidArg pkt.from_node_id) (h2 : canonicalUuidArg pkt.from_conn_id)
    (h3 : canonicalUuidArg pkt.to_id) (h4 : canonicalUuidArg pkt.to_sub_id)
    (h5 : canonicalUuidArg pkt.message_id) :
    ∃ u1 u2 u3 u4 u5 : String,
      pkt.from_node_id = some u1 ∧ pkt.from_conn_id = some u2 ∧
      pkt.to_id = some u3 ∧ pkt.to_sub_id = some u4 ∧ pkt.message_id = some u5 ∧
      (encodeV1Packet pkt).bind decodePacket = .ok (.v1 {
        version := ⟨1, m⟩, spread := sp, ttl := t,
        type := jsOfOptStr (packetTypeName ct), flags := fl,
        from_node_id := u1, from_conn_id := u2, message_id := u5,
        toDest := if ct = 2 then some (.groupMsg u3 u4)
                  else some (.nodeConn u3 u4),
        payload := bs }) := by
  obtain ⟨u1, b1, he1, hb1, hl1, hd1⟩ := canonicalUuid_spec _ h1
  obtain ⟨u2, b2, he2, hb2, hl2, hd2⟩ := canonicalUuid_spec _ h2
  obtain ⟨u3, b3, he3, hb3, hl3, hd3⟩ := canonicalUuid_spec _ h3
  obtain ⟨u4, b4, he4, hb4, hl4, hd4⟩ := canonicalUuid_spec _ h4
  obtain ⟨u5, b5, he5, hb5, hl5, hd5⟩ := canonicalUuid_spec _ h5
  refine ⟨u1, u2, u3, u4, u5, he1, he2, he3, he4, he5, ?_⟩
  rw [encodeV1_concat pkt bs m sp t fl ct b1 b2 b3 b4 b5 hp hlen hm hmlt hsp hsplt
    ht htlt hfl hfllt hct (by omega) hb1 hb2 hb3 hb4 hb5]
  simp only [Except.bind]
  unfold decodePacket
  rw [if_pos (by rfl)]
  rw [decodeV1_concat m sp t ct fl b1 b2 b3 b4 b5 bs u1 u2 u3 u4 u5 hl1 hl2 hl3
    hl4 hl5 hlen hd1 hd2 hd3 hd4 hd5]
  simp only [Except.map]
  interval_cases ct
  · rfl
  · rfl
  · rfl

/-- A fully valid binary packet with the numeric wire code 1 (directed)
as its `type`. -/
def c2pkt : EncPacketV1 :=
  { minor := some 0, spread := some 0, ttl := some 3, type := .num 1,
    flags := some 0,
    from_node_id := some "11111111-1111-1111-1111-111111111111",
    from_conn_id := some "22222222-2222-2222-2222-222222222222",
    to_id := some "33333333-3333-3333-3333-333333333333",
    to_sub_id := some "44444444-4444-4444-4444-444444444444",
    message_id := some "55555555-5555-5555-5555-555555555555",
    payload := .bytes [1, 2, 3] }

/-- What decoding the encoded `c2pkt` actually produces. -/
def c2dec : DecPacketV1 :=
  { version := ⟨1, 0⟩, spread := 0, ttl := 3, type := .str "directed", flags := 0,
    from_node_id := "11111111-1111-1111-1111-111111111111",
    from_conn_id := "22222222-2222-2222-2222-222222222222",
    message_id := "55555555-5555-5555-5555-555555555555",
    toDest := some (.nodeConn "33333333-3333-3333-3333-333333333333"
      "44444444-4444-4444-4444-444444444444"),
    payload := [1, 2, 3] }

/-- C2 counterexample: the decoded packet's `type` is the string name
`"directed"`, not the numeric wire code `1` the encoded packet carried —
so `type` is *not* reproduced exactly as the claim states. -/
theorem C2_counterexample :
    (encodeV1Packet c2pkt).bind decodePacket = .ok (.v1 c2dec) ∧
    c2pkt.type = .num 1 ∧ c2dec.type = .str "directed" ∧
    JsVal.str "directed" ≠ JsVal.num 1 := by
  refine ⟨rfl, rfl, rfl, fun h => JsVal.noConfusion h⟩

/-- Witness for the amended C2 theorem at `c2pkt`. -/
theorem C2_amended_witness :
    ∃ u1 u2 u3 u4 u5 : String,
      c2pkt.from_node_id = some u1 ∧ c2pkt.from_conn_id = some u2 ∧
      c2pkt.to_id = some u3 ∧ c2pkt.to_sub_id = some u4 ∧
      c2pkt.message_id = some u5 ∧
      (encodeV1Packet c2pkt).bind decodePacket = .ok (.v1 {
        version := ⟨1, 0⟩, spread := 0, ttl := 3,
        type := jsOfOptStr (packetTypeName 1), flags := 0,
        from_node_id := u1, from_conn_id := u2, message_id := u5,
        toDest := if 1 = 2 then some (.groupMsg u3 u4)
                  else some (.nodeConn u3 u4),
        payload := [1, 2, 3] }) :=
  C2_roundtrip_amended c2pkt [1, 2, 3] 0 0 3 0 1 rfl (by decide) rfl (by decide)
    rfl (by decide) rfl (by decide) rfl (by decide) (by rw [Nat.cast_one]; rfl) (by decide)
    ⟨_, rfl, by decide, by decide⟩ ⟨_, rfl, by decide, by decide⟩
    ⟨_, rfl, by decide, by decide⟩ ⟨_, rfl, by decide, by decide⟩
    ⟨_, rfl, by decide, by decide⟩

/-! ## Claim C10 -/

/-- C10 counterexample: the byte sequence `22 FF 22` is not valid UTF-8,
yet `decode_json_payload` does **not** fail: the default `TextDecoder`
replaces the invalid byte with U+FFFD, and the replaced text is the valid
JSON string literal `"�"`. -/
theorem C10_counterexample :
    validUtf8 [0x22, 0xFF, 0x22] = false ∧
    decodeJsonPayload [0x22, 0xFF, 0x22] = .ok (.str "�") := by
  exact ⟨rfl, rfl⟩

/-- C10 (amended): `decode_json_payload` is exactly `JSON.parse` after a
*lossy* UTF-8 decode: on any payload that is the UTF-8 encoding of a text
`t` it returns precisely `JSON.parse t` (the JSON value when `t` is valid
JSON, the parse failure otherwise); invalid UTF-8 alone is never
rejected — invalid sequences decode to U+FFFD and can still form valid
JSON (see the counterexample). -/
theorem C10_decodeJsonPayload (t : String) (payload : List Nat)
    (h : payload = utf8Encode t) :
    decodeJsonPayload payload = jsonParse t := by
  rw [h]
  unfold decodeJsonPayload
  rw [utf8_roundtrip]

/-- Witness for the amended C10 theorem: a concrete payload decoding to a
concrete JSON value, and a concrete invalid-JSON payload failing. -/
theorem C10_amended_witness :
    decodeJsonPayload (utf8Encode "[1,true,null]") = jsonParse "[1,true,null]" ∧
    jsonParse "[1,true,null]" = .ok (.arr [.num 1, .bool true, .null]) ∧
    decodeJsonPayload (utf8Encode "[1,") = jsonParse "[1," ∧
    (jsonParse "[1,").isOk = false := by
  refine ⟨C10_decodeJsonPayload _ _ rfl, by rfl, C10_decodeJsonPayload _ _ rfl, by rfl⟩

end PanUtil
